import Mathlib

/-!
# Monitoramento: snapshot encryption and transport pipeline

A shallow embedding of the Go program (`main.go`, `utils/utils.go`,
`hardware/info.go`, `performance/metrics.go`, `network/info.go`,
`network/advanced_info.go`, and the records of `software/info.go`).  Byte
slices are `List Nat` (each element below 256), Go strings are `String`.  The
standard-library routines the program calls (`hex.DecodeString`,
`base64.URLEncoding`, `cipher.NewCFBEncrypter`, `io.ReadFull`, `strings`,
`json.MarshalIndent`) are transcribed from the Go standard library; the AES block
function itself, the random source, the operating-system queries and the
HTTP server are parameters.  `log.Printf` calls are left out: they neither
change a result nor the control flow.
-/

set_option autoImplicit false

deriving instance DecidableEq for Except

namespace Monitoramento

/-! ## encoding/hex -/

/-- Errors of `hex.DecodeString`: `InvalidByteError` and `ErrLength`. -/
inductive HexError where
  | invalidByte (c : Char)
  | errLength
  deriving DecidableEq, Repr

/-- Value of one hexadecimal digit (`reverseHexTable`); `none` stands for the
table entry `0xff`. -/
def fromHexChar (c : Char) : Option Nat :=
  if '0' ≤ c ∧ c ≤ '9' then some (c.toNat - '0'.toNat)
  else if 'a' ≤ c ∧ c ≤ 'f' then some (c.toNat - 'a'.toNat + 10)
  else if 'A' ≤ c ∧ c ≤ 'F' then some (c.toNat - 'A'.toNat + 10)
  else none

/-- The loop of `hex.Decode`: two characters per byte, the first invalid
character is reported, an odd trailing character gives `ErrLength`. -/
def hexDecode : List Char → Except HexError (List Nat)
  | [] => .ok []
  | [p] =>
    match fromHexChar p with
    | none => .error (.invalidByte p)
    | some _ => .error .errLength
  | p :: q :: rest =>
    match fromHexChar p with
    | none => .error (.invalidByte p)
    | some a =>
      match fromHexChar q with
      | none => .error (.invalidByte q)
      | some b =>
        match hexDecode rest with
        | .error e => .error e
        | .ok bs => .ok ((a <<< 4 ||| b) :: bs)

/-- Go `hex.DecodeString`. -/
def hexDecodeString (s : String) : Except HexError (List Nat) :=
  hexDecode s.toList

/-! ## encoding/base64, URL alphabet with padding -/

/-- The 64 characters of `base64.URLEncoding`. -/
def encodeURL : List Char :=
  "ABCDEFGHIJKLMNOPQRSTUVWXYZabcdefghijklmnopqrstuvwxyz0123456789-_".toList

/-- Alphabet lookup `enc.encode[i]`. -/
def b64Char (i : Nat) : Char := encodeURL.getD i 'A'

/-- The loop of `(*Encoding).Encode` for the padded URL alphabet. -/
def base64Encode : List Nat → List Char
  | [] => []
  | [b0] =>
    let val := b0 <<< 16
    [b64Char (val >>> 18 &&& 0x3F), b64Char (val >>> 12 &&& 0x3F), '=', '=']
  | [b0, b1] =>
    let val := b0 <<< 16 ||| b1 <<< 8
    [b64Char (val >>> 18 &&& 0x3F), b64Char (val >>> 12 &&& 0x3F),
     b64Char (val >>> 6 &&& 0x3F), '=']
  | b0 :: b1 :: b2 :: rest =>
    let val := b0 <<< 16 ||| b1 <<< 8 ||| b2
    b64Char (val >>> 18 &&& 0x3F) :: b64Char (val >>> 12 &&& 0x3F) ::
      b64Char (val >>> 6 &&& 0x3F) :: b64Char (val &&& 0x3F) :: base64Encode rest

/-- Go `base64.URLEncoding.EncodeToString`. -/
def EncodeToString (src : List Nat) : String := String.mk (base64Encode src)

/-- Inverse alphabet lookup (`enc.decodeMap`); `none` for a character outside
the alphabet. -/
def b64Index (c : Char) : Option Nat :=
  if 'A' ≤ c ∧ c ≤ 'Z' then some (c.toNat - 'A'.toNat)
  else if 'a' ≤ c ∧ c ≤ 'z' then some (c.toNat - 'a'.toNat + 26)
  else if '0' ≤ c ∧ c ≤ '9' then some (c.toNat - '0'.toNat + 52)
  else if c = '-' then some 62
  else if c = '_' then some 63
  else none

/-- The receiver's decoder (`(*Encoding).Decode` on input without line
breaks): four characters per quantum, `=` padding only at the end of the last
quantum. -/
def base64Decode : List Char → Option (List Nat)
  | [] => some []
  | c0 :: c1 :: c2 :: c3 :: rest =>
    if rest = [] ∧ c3 = '=' then
      if c2 = '=' then
        match b64Index c0, b64Index c1 with
        | some v0, some v1 =>
          let val := v0 <<< 18 ||| v1 <<< 12
          some [val >>> 16 &&& 0xFF]
        | _, _ => none
      else
        match b64Index c0, b64Index c1, b64Index c2 with
        | some v0, some v1, some v2 =>
          let val := v0 <<< 18 ||| v1 <<< 12 ||| v2 <<< 6
          some [val >>> 16 &&& 0xFF, val >>> 8 &&& 0xFF]
        | _, _, _ => none
    else
      match b64Index c0, b64Index c1, b64Index c2, b64Index c3 with
      | some v0, some v1, some v2, some v3 =>
        let val := v0 <<< 18 ||| v1 <<< 12 ||| v2 <<< 6 ||| v3
        match base64Decode rest with
        | some bs =>
          some ((val >>> 16 &&& 0xFF) :: (val >>> 8 &&& 0xFF) :: (val &&& 0xFF) :: bs)
        | none => none
      | _, _, _, _ => none
  | _ => none

/-- Go `base64.URLEncoding.DecodeString`. -/
def DecodeString (s : String) : Option (List Nat) := base64Decode s.toList

/-! ## crypto/aes, crypto/cipher (CFB mode), io.ReadFull -/

/-- Go `aes.BlockSize`. -/
def BlockSize : Nat := 16

/-- Go `aes.KeySizeError`. -/
inductive KeySizeError where
  | keySize (n : Nat)
  deriving DecidableEq, Repr

/-- Go `aes.NewCipher`: a key of 16, 24 or 32 bytes selects the block function
`aes key`, every other length is a `KeySizeError`.  The block function
(`Block.Encrypt` on one 16-byte block) is the parameter `aes`. -/
def NewCipher (aes : List Nat → List Nat → List Nat) (key : List Nat) :
    Except KeySizeError (List Nat → List Nat) :=
  if key.length = 16 ∨ key.length = 24 ∨ key.length = 32 then .ok (aes key)
  else .error (.keySize key.length)

/-- Go `subtle.XORBytes(dst, x, y)`: the xor of the common prefix of `x` and
`y`; its length is the count the Go function returns. -/
def xorBytes (x y : List Nat) : List Nat := List.zipWith (· ^^^ ·) x y

/-- Go `copy(dst[off:], src)`: as many leading bytes of `src` as fit. -/
def copyAt (dst : List Nat) (off : Nat) (src : List Nat) : List Nat :=
  let n := min (dst.length - off) src.length
  dst.take off ++ src.take n ++ dst.drop (off + n)

/-- The stream state of Go `crypto/cipher` `cfb`. -/
structure cfb where
  b : List Nat → List Nat
  next : List Nat
  out : List Nat
  outUsed : Nat
  decrypt : Bool

/-- Go `newCFB`; its callers pass an `iv` of `BlockSize` bytes. -/
def newCFB (block : List Nat → List Nat) (iv : List Nat) (decrypt : Bool) : cfb :=
  { b := block
    out := List.replicate BlockSize 0
    next := copyAt (List.replicate BlockSize 0) 0 iv
    outUsed := BlockSize
    decrypt := decrypt }

/-- Go `cipher.NewCFBEncrypter`. -/
def NewCFBEncrypter (block : List Nat → List Nat) (iv : List Nat) : cfb :=
  newCFB block iv false

/-- Go `cipher.NewCFBDecrypter`. -/
def NewCFBDecrypter (block : List Nat → List Nat) (iv : List Nat) : cfb :=
  newCFB block iv true

/-- The loop `for len(src) > 0` of `(*cfb).XORKeyStream`, with `dst` of the
same length as `src`; returns the bytes written to `dst`.  The first argument
bounds the number of iterations. -/
def XORKeyStreamLoop : Nat → cfb → List Nat → List Nat
  | 0, _, _ => []
  | fuel + 1, x, src =>
    if src.length > 0 then
      let x := if x.outUsed = x.out.length then { x with out := x.b x.next, outUsed := 0 } else x
      let x := if x.decrypt then { x with next := copyAt x.next x.outUsed src } else x
      let dst := xorBytes src (x.out.drop x.outUsed)
      let x := if !x.decrypt then { x with next := copyAt x.next x.outUsed dst } else x
      dst ++ XORKeyStreamLoop fuel { x with outUsed := x.outUsed + dst.length }
        (src.drop dst.length)
    else []

/-- Go `(*cfb).XORKeyStream(dst, src)`: every iteration consumes at least one
byte, so `len(src)` iterations are enough. -/
def XORKeyStream (x : cfb) (src : List Nat) : List Nat :=
  XORKeyStreamLoop src.length x src

/-- Go `io.ReadFull(rand.Reader, buf)` with `len(buf) = n`; `rand` lists the
bytes the random source yields before it fails.  `none` is the read error. -/
def ReadFull (rand : List Nat) (n : Nat) : Option (List Nat) :=
  if n ≤ rand.length then some (rand.take n) else none

/-! ## utils.EncryptJSON -/

/-- The four error returns of `EncryptJSON`, by message. -/
inductive EncryptError where
  /-- Message "erro ao decodificar a chave". -/
  | decodeKey (e : HexError)
  /-- Message "tamanho de chave inválido". -/
  | keyLength (n : Nat)
  /-- Message "erro ao criar cifra". -/
  | createCipher (e : KeySizeError)
  /-- Message "erro ao gerar IV". -/
  | generateIV
  deriving DecidableEq, Repr

/-- Go `utils.EncryptJSON(jsonData, hexKey)`, returning the pair
`(string, error)`; `none` is the `nil` error. -/
def EncryptJSON (aes : List Nat → List Nat → List Nat) (rand : List Nat)
    (jsonData : List Nat) (hexKey : String) : String × Option EncryptError :=
  match hexDecodeString hexKey with
  | .error e => ("", some (.decodeKey e))
  | .ok key =>
    if key.length ≠ 16 ∧ key.length ≠ 24 ∧ key.length ≠ 32 then
      ("", some (.keyLength key.length))
    else
      match NewCipher aes key with
      | .error e => ("", some (.createCipher e))
      | .ok block =>
        match ReadFull rand BlockSize with
        | none => ("", some .generateIV)
        | some iv =>
          let stream := NewCFBEncrypter block iv
          let ciphertext := iv ++ XORKeyStream stream jsonData
          (EncodeToString ciphertext, none)

/-- Every element is a byte. -/
def Bytes (l : List Nat) : Prop := ∀ b ∈ l, b < 256

instance (l : List Nat) : Decidable (Bytes l) := by unfold Bytes; infer_instance

/-- What is assumed of the AES block function: a 16-byte block is mapped to
16 bytes, under every key. -/
def BlockFunction (aes : List Nat → List Nat → List Nat) : Prop :=
  ∀ key block, block.length = 16 → (aes key block).length = 16 ∧ Bytes (aes key block)

/-- A toy block function used to evaluate the definitions on concrete inputs:
byte `i` of the output is byte `i` of the input plus byte `i` of the key plus
`i`, modulo 256. -/
def toyBlock (key block : List Nat) : List Nat :=
  (List.range BlockSize).map fun i => (block.getD i 0 + key.getD i 0 + i) % 256

/-! ## utils.ReadINIFile -/

/-- Go `unicode.IsSpace`. -/
def isSpace (c : Char) : Bool :=
  c = '\t' || c = '\n' || c = '\x0b' || c = '\x0c' || c = '\r' || c = ' ' ||
  c = '\u0085' || c = '\u00a0' || c = '\u1680' ||
  ('\u2000' ≤ c && c ≤ '\u200a') ||
  c = '\u2028' || c = '\u2029' || c = '\u202f' || c = '\u205f' || c = '\u3000'

/-- Go `strings.TrimSpace`. -/
def TrimSpace (s : List Char) : List Char :=
  ((s.dropWhile isSpace).reverse.dropWhile isSpace).reverse

/-- Go `strings.Split(s, sep)` for a one-character separator. -/
def Split (s : List Char) (sep : Char) : List (List Char) :=
  match s with
  | [] => [[]]
  | c :: cs =>
    if c = sep then [] :: Split cs sep
    else
      match Split cs sep with
      | [] => [[c]]
      | l :: ls => (c :: l) :: ls

/-- Go `strings.SplitN(s, sep, 2)` for a one-character separator: cut at the
first separator, or the whole string when there is none. -/
def SplitN2 (s : List Char) (sep : Char) : List (List Char) :=
  match s with
  | [] => [[]]
  | c :: cs =>
    if c = sep then [[], cs]
    else
      match SplitN2 cs sep with
      | [a] => [c :: a]
      | [a, b] => [c :: a, b]
      | r => r

/-- Go `strings.HasPrefix(s, p)` for a one-character prefix. -/
def HasPrefix (s : List Char) (p : Char) : Bool :=
  match s with
  | [] => false
  | c :: _ => c = p

/-- A Go `map[string]string`, kept with one pair per key. -/
abbrev Config := List (String × String)

/-- Go `config[key] = value`. -/
def Config.set (config : Config) (key value : String) : Config :=
  (key, value) :: config.filter fun e => e.1 ≠ key

/-- Go `value, ok := config[key]`. -/
def Config.get (config : Config) (key : String) : Option String :=
  config.lookup key

/-- The body of the loop `for _, line := range lines` of `ReadINIFile`. -/
def readLine (config : Config) (line : List Char) : Config :=
  let line := TrimSpace line
  if line = [] ∨ HasPrefix line ';' ∨ HasPrefix line '#' then config
  else
    match SplitN2 line '=' with
    | [k, v] => config.set (String.mk (TrimSpace k)) (String.mk (TrimSpace v))
    | _ => config

/-- Go `utils.ReadINIFile`; `content` is the outcome of `os.ReadFile`
(`none` is the read error, which is returned unchanged). -/
def ReadINIFile (content : Option String) : Option Config :=
  match content with
  | none => none
  | some text => some ((Split text.toList '\n').foldl readLine [])

/-! ## hardware -/

/-- A Go `error` value, by its message. -/
abbrev Error := String

/-- A Go run-time panic. -/
inductive RuntimeError where
  | indexOutOfRange (index len : Nat)
  | nilDereference
  | sliceBoundsOutOfRange (low len : Nat)
  deriving DecidableEq, Repr

/-- A Go `float64`, by its IEEE-754 bit pattern; arithmetic on it is not
interpreted. -/
structure Float64 where
  bits : Nat
  deriving DecidableEq, Repr

namespace hardware

structure CPUInfo where
  Model : String
  Cores : Int
  Threads : Int
  Frequency : Float64
  Temperature : Float64
  Usage : Float64
  deriving DecidableEq, Repr

structure MemoryInfo where
  Total : Nat
  Used : Nat
  Free : Nat
  UsagePercent : Float64
  deriving DecidableEq, Repr

structure DiskInfo where
  Device : String
  Type_ : String
  Total : Nat
  Used : Nat
  Free : Nat
  UsagePercent : Float64
  deriving DecidableEq, Repr

structure GPUInfo where
  Model : String
  Memory : Nat
  Temperature : Float64
  Usage : Float64
  deriving DecidableEq, Repr

structure Motherboard where
  Manufacturer : String
  Model : String
  SerialNumber : String
  deriving DecidableEq, Repr

structure BIOSInfo where
  Vendor : String
  Version : String
  ReleaseDate : String
  deriving DecidableEq, Repr

structure USBDevice where
  Name : String
  VendorID : String
  ProductID : String
  SerialNumber : String
  deriving DecidableEq, Repr

/-- Go `hardware.Info`.  Slices are lists: the package only ever appends to a
nil slice, so the empty list is the nil slice. -/
structure Info where
  CPU : CPUInfo
  Memory : MemoryInfo
  Disk : List DiskInfo
  GPU : List GPUInfo
  Motherboard : Motherboard
  BIOS : BIOSInfo
  USB : List USBDevice
  deriving DecidableEq, Repr

/-! The records of `gopsutil` and `ghw` that the package reads, with the
fields it uses; a pointer that may be nil is an `Option`. -/

/-- Go `cpu.InfoStat`; `Cores` is an `int32`. -/
structure InfoStat where
  ModelName : String
  Cores : Int
  Mhz : Float64
  deriving DecidableEq, Repr

/-- Go `mem.VirtualMemoryStat`. -/
structure VirtualMemoryStat where
  Total : Nat
  Used : Nat
  Free : Nat
  UsedPercent : Float64
  deriving DecidableEq, Repr

/-- Go `disk.PartitionStat`. -/
structure PartitionStat where
  Device : String
  Mountpoint : String
  Fstype : String
  deriving DecidableEq, Repr

/-- Go `disk.UsageStat`. -/
structure UsageStat where
  Total : Nat
  Used : Nat
  Free : Nat
  UsedPercent : Float64
  deriving DecidableEq, Repr

/-- Go `pcidb.Product`. -/
structure Product where
  Name : String
  deriving DecidableEq, Repr

/-- Go `pci.Device`; `Product` is a pointer. -/
structure Device where
  Product : Option Product
  deriving DecidableEq, Repr

/-- Go `gpu.GraphicsCard`; `DeviceInfo` is a pointer, nil when the card has no
PCI information. -/
structure GraphicsCard where
  DeviceInfo : Option Device
  deriving DecidableEq, Repr

/-- Go `product.Info` of `ghw`. -/
structure ProductInfo where
  Vendor : String
  Name : String
  SerialNumber : String
  deriving DecidableEq, Repr

/-- Go `bios.Info` of `ghw`. -/
structure BIOSData where
  Vendor : String
  Version : String
  Date : String
  deriving DecidableEq, Repr

/-- Go `block.Disk` of `ghw`. -/
structure BlockDisk where
  IsRemovable : Bool
  Model : String
  Vendor : String
  SerialNumber : String
  deriving DecidableEq, Repr

/-- What the operating-system queries answer during one call of `Collect`.
A query whose error the package checks before using the value is an `Except`;
`cpu.Percent` is the pair the Go function returns, because `getCPUInfo` uses
the value after logging the error. -/
structure Queries where
  /-- Go `cpu.Info()` -/
  cpuInfo : Except Error (List InfoStat)
  /-- Go `cpu.Percent(time.Second, false)` -/
  cpuPercent : List Float64 × Option Error
  /-- Go `mem.VirtualMemory()` -/
  virtualMemory : Except Error VirtualMemoryStat
  /-- Go `disk.Partitions(false)` -/
  partitions : Except Error (List PartitionStat)
  /-- Go `disk.Usage(mountpoint)` -/
  usage : String → Except Error UsageStat
  /-- Go `ghw.GPU()`, the field `GraphicsCards` -/
  gpu : Except Error (List GraphicsCard)
  /-- Go `ghw.Product()` -/
  product : Except Error ProductInfo
  /-- Go `ghw.BIOS()` -/
  bios : Except Error BIOSData
  /-- Go `ghw.Block(option)`, the field `Disks` -/
  block : Except Error (List BlockDisk)
  /-- Go `x / 1000` on `float64` -/
  divThousand : Float64 → Float64

/-- Go `int32` wrap-around of an integer. -/
def wrapInt32 (x : Int) : Int := (x + 2 ^ 31) % 2 ^ 32 - 2 ^ 31

/-- Go `s[i]` on a slice: a run-time panic when `i` is out of range. -/
def index {α : Type} (s : List α) (i : Nat) : Except RuntimeError α :=
  match s.get? i with
  | some a => .ok a
  | none => .error (.indexOutOfRange i s.length)

/-- Go `*p`: a run-time panic on the nil pointer. -/
def deref {α : Type} (p : Option α) : Except RuntimeError α :=
  match p with
  | some a => .ok a
  | none => .error .nilDereference

/-- The zero `float64`. -/
def zeroFloat : Float64 := ⟨0⟩

/-- The zero values `CPUInfo{}`, `MemoryInfo{}`, `Motherboard{}`, `BIOSInfo{}`. -/
def CPUInfo.zero : CPUInfo := ⟨"", 0, 0, zeroFloat, zeroFloat, zeroFloat⟩

def MemoryInfo.zero : MemoryInfo := ⟨0, 0, 0, zeroFloat⟩

def Motherboard.zero : Motherboard := ⟨"", "", ""⟩

def BIOSInfo.zero : BIOSInfo := ⟨"", "", ""⟩

/-- The zero value of `hardware.Info` (`var info Info`). -/
def Info.zero : Info :=
  ⟨CPUInfo.zero, MemoryInfo.zero, [], [], Motherboard.zero, BIOSInfo.zero, []⟩

/-- Go `getCPUInfo`: the returned pair `(CPUInfo, error)`, or a panic. -/
def getCPUInfo (q : Queries) : Except RuntimeError (CPUInfo × Option Error) :=
  match q.cpuInfo with
  | .error err => .ok (CPUInfo.zero, some err)
  | .ok cpuInfo =>
    if cpuInfo.length = 0 then
      .ok (CPUInfo.zero, some "nenhuma informação de CPU encontrada")
    else do
      let (percent, _) := q.cpuPercent
      let temperature := zeroFloat
      let c0 ← index cpuInfo 0
      let p0 ← index percent 0
      pure ({ Model := c0.ModelName
              Cores := c0.Cores
              Threads := wrapInt32 (c0.Cores * 2)
              Frequency := q.divThousand c0.Mhz
              Temperature := temperature
              Usage := p0 }, none)

/-- Go `getMemoryInfo`. -/
def getMemoryInfo (q : Queries) : MemoryInfo × Option Error :=
  match q.virtualMemory with
  | .error err => (MemoryInfo.zero, some err)
  | .ok memInfo =>
    ({ Total := memInfo.Total
       Used := memInfo.Used
       Free := memInfo.Free
       UsagePercent := memInfo.UsedPercent }, none)

/-- The loop of `getDiskInfo` over the partitions: a partition whose usage
query fails is skipped. -/
def diskLoop (q : Queries) (disks : List DiskInfo) : List PartitionStat → List DiskInfo
  | [] => disks
  | partition :: rest =>
    match q.usage partition.Mountpoint with
    | .error _ => diskLoop q disks rest
    | .ok usage =>
      diskLoop q (disks ++ [{ Device := partition.Device
                              Type_ := partition.Fstype
                              Total := usage.Total
                              Used := usage.Used
                              Free := usage.Free
                              UsagePercent := usage.UsedPercent }]) rest

/-- Go `getDiskInfo`. -/
def getDiskInfo (q : Queries) : List DiskInfo × Option Error :=
  match q.partitions with
  | .error err => ([], some err)
  | .ok partitions => (diskLoop q [] partitions, none)

/-- The loop of `getGPUInfo` over the graphics cards; reading
`card.DeviceInfo.Product.Name` dereferences two pointers. -/
def gpuLoop (gpus : List GPUInfo) : List GraphicsCard → Except RuntimeError (List GPUInfo)
  | [] => .ok gpus
  | card :: rest => do
    let deviceInfo ← deref card.DeviceInfo
    let product ← deref deviceInfo.Product
    gpuLoop (gpus ++ [{ Model := product.Name
                        Memory := 0
                        Temperature := zeroFloat
                        Usage := zeroFloat }]) rest

/-- Go `getGPUInfo`. -/
def getGPUInfo (q : Queries) : Except RuntimeError (List GPUInfo × Option Error) :=
  match q.gpu with
  | .error err => .ok ([], some err)
  | .ok cards => do
    let gpus ← gpuLoop [] cards
    pure (gpus, none)

/-- Go `getMotherboardInfo`. -/
def getMotherboardInfo (q : Queries) : Motherboard × Option Error :=
  match q.product with
  | .error err => (Motherboard.zero, some err)
  | .ok product =>
    ({ Manufacturer := product.Vendor
       Model := product.Name
       SerialNumber := product.SerialNumber }, none)

/-- Go `getBIOSInfo`. -/
def getBIOSInfo (q : Queries) : BIOSInfo × Option Error :=
  match q.bios with
  | .error err => (BIOSInfo.zero, some err)
  | .ok bios =>
    ({ Vendor := bios.Vendor
       Version := bios.Version
       ReleaseDate := bios.Date }, none)

/-- The loop of `getUSBInfo` over the block devices. -/
def usbLoop (devices : List USBDevice) : List BlockDisk → List USBDevice
  | [] => devices
  | disk :: rest =>
    if disk.IsRemovable then
      usbLoop (devices ++ [{ Name := disk.Model
                             VendorID := disk.Vendor
                             ProductID := disk.Model
                             SerialNumber := disk.SerialNumber }]) rest
    else usbLoop devices rest

/-- Go `getUSBInfo`. -/
def getUSBInfo (q : Queries) : List USBDevice × Option Error :=
  match q.block with
  | .error err => ([], some ("error getting block info: " ++ err))
  | .ok disks => (usbLoop [] disks, none)

/-- Go `hardware.Collect`: every sub-probe is called in turn and its value is
stored in the record, whatever error comes with it. -/
def Collect (q : Queries) : Except RuntimeError Info := do
  let info := Info.zero
  let (cpu, _) ← getCPUInfo q
  let info := { info with CPU := cpu }
  let (memory, _) := getMemoryInfo q
  let info := { info with Memory := memory }
  let (disk, _) := getDiskInfo q
  let info := { info with Disk := disk }
  let (gpu, _) ← getGPUInfo q
  let info := { info with GPU := gpu }
  let (motherboard, _) := getMotherboardInfo q
  let info := { info with Motherboard := motherboard }
  let (bios, _) := getBIOSInfo q
  let info := { info with BIOS := bios }
  let (usb, _) := getUSBInfo q
  let info := { info with USB := usb }
  pure info

end hardware

/-! ## main -/

/-- Go `main.SystemInfo`; the software, network and performance records are
kept abstract. -/
structure SystemInfo (S N P : Type) where
  Timestamp : Nat
  Hardware : hardware.Info
  Software : S
  Network : N
  Performance : P

/-- Go `http.Response`, the fields `sendDataToServer` reads. -/
structure Response where
  StatusCode : Int
  Status : String
  deriving DecidableEq, Repr

/-- Go `http.StatusOK`. -/
def StatusOK : Int := 200

/-- The four domain collectors. -/
inductive Domain where
  | hardware
  | software
  | network
  | performance
  deriving DecidableEq, Repr

/-- The `log.Fatalf` calls of `main`, by message. -/
inductive Fatal where
  /-- Message "Erro ao ler o arquivo de configuração". -/
  | readConfig
  /-- Message "Endereço do servidor não encontrado no arquivo de configuração". -/
  | noServerAddress
  /-- Message "Chave de criptografia não encontrada no arquivo de configuração". -/
  | noEncryptionKey
  /-- Message "Erro ao criar JSON". -/
  | createJSON
  /-- Message "Erro ao criptografar os dados". -/
  | encrypt (e : EncryptError)
  /-- Message "Erro ao enviar dados para o servidor". -/
  | send (e : Error)
  deriving DecidableEq, Repr

/-- What one run does that is visible from outside, in order. -/
inductive Event where
  /-- a domain collector is called -/
  | probe (d : Domain)
  /-- Go `http.Post(url, contentType, body)` is called -/
  | post (url contentType body : String)
  /-- Go `log.Fatalf`: the process exits with status 1 -/
  | fatal (f : Fatal)
  /-- the process dies of a run-time panic -/
  | panic (e : RuntimeError)
  /-- the final `fmt.Println` -/
  | success
  deriving DecidableEq, Repr

/-- Everything outside the program that one run of `main` meets.  The
collectors of the software, network and performance packages are taken by
their outcome: the record they return, or the panic they die of. -/
structure World (S N P : Type) where
  /-- Go `os.ReadFile("config.ini")`, `none` on error -/
  configFile : Option String
  /-- Go `time.Now()` -/
  now : Nat
  /-- the queries behind `hardware.Collect()` -/
  hw : hardware.Queries
  /-- Go `software.Collect()` -/
  software : Except RuntimeError S
  /-- Go `network.Collect()` -/
  network : Except RuntimeError N
  /-- Go `performance.Collect()` -/
  performance : Except RuntimeError P
  /-- Go `json.MarshalIndent(info, "", "  ")`, `none` on error -/
  marshal : SystemInfo S N P → Option (List Nat)
  /-- the AES block function -/
  aes : List Nat → List Nat → List Nat
  /-- the bytes `rand.Reader` yields -/
  rand : List Nat
  /-- Go `http.Post(url, contentType, body)` -/
  post : String → String → String → Except Error Response

section
variable {S N P : Type}

/-- Go `collectSystemInfo`: the fields of the composite literal are evaluated
in order; a panic in one collector ends the run there. -/
def collectSystemInfo (w : World S N P) :
    List Event × Except RuntimeError (SystemInfo S N P) :=
  match hardware.Collect w.hw with
  | .error e => ([.probe .hardware], .error e)
  | .ok hw =>
    match w.software with
    | .error e => ([.probe .hardware, .probe .software], .error e)
    | .ok sw =>
      match w.network with
      | .error e => ([.probe .hardware, .probe .software, .probe .network], .error e)
      | .ok net =>
        match w.performance with
        | .error e =>
          ([.probe .hardware, .probe .software, .probe .network, .probe .performance],
            .error e)
        | .ok perf =>
          ([.probe .hardware, .probe .software, .probe .network, .probe .performance],
            .ok { Timestamp := w.now
                  Hardware := hw
                  Software := sw
                  Network := net
                  Performance := perf })

/-- Go `sendDataToServer`: the requests made and the returned error. -/
def sendDataToServer (post : String → String → String → Except Error Response)
    (serverAddress encryptedData : String) : List Event × Option Error :=
  match post serverAddress "text/plain" encryptedData with
  | .error err => ([.post serverAddress "text/plain" encryptedData], some err)
  | .ok resp =>
    if resp.StatusCode ≠ StatusOK then
      ([.post serverAddress "text/plain" encryptedData],
        some ("servidor retornou status não-OK: " ++ resp.Status))
    else ([.post serverAddress "text/plain" encryptedData], none)

/-- Go `main`: the events of one run. -/
def main (w : World S N P) : List Event :=
  match ReadINIFile w.configFile with
  | none => [.fatal .readConfig]
  | some config =>
    match config.get "server_address" with
    | none => [.fatal .noServerAddress]
    | some serverAddress =>
      match config.get "encryption_key" with
      | none => [.fatal .noEncryptionKey]
      | some encryptionKey =>
        match collectSystemInfo w with
        | (probes, .error e) => probes ++ [.panic e]
        | (probes, .ok info) =>
          match w.marshal info with
          | none => probes ++ [.fatal .createJSON]
          | some jsonData =>
            match EncryptJSON w.aes w.rand jsonData encryptionKey with
            | (_, some err) => probes ++ [.fatal (.encrypt err)]
            | (encryptedData, none) =>
              match sendDataToServer w.post serverAddress encryptedData with
              | (sent, some err) => probes ++ sent ++ [.fatal (.send err)]
              | (sent, none) => probes ++ sent ++ [.success]

end


/-! ## strings -/

/-- The scan of Go `strings.Fields`: `cur` is the field being read. -/
def fieldsFrom (cur : List Char) : List Char → List (List Char)
  | [] => if cur = [] then [] else [cur]
  | c :: cs =>
    if isSpace c then
      if cur = [] then fieldsFrom [] cs else cur :: fieldsFrom [] cs
    else fieldsFrom (cur ++ [c]) cs

/-- Go `strings.Fields`: the maximal runs of characters that are not white
space. -/
def Fields (s : List Char) : List (List Char) := fieldsFrom [] s

/-- Go `strings.HasPrefix(s, p)` for a prefix of any length. -/
def HasPrefixOf (s p : String) : Bool := p.toList.isPrefixOf s.toList

/-- Go `strings.Join(elems, sep)` for a one-character separator. -/
def Join (elems : List (List Char)) (sep : Char) : List Char :=
  match elems with
  | [] => []
  | [e] => e
  | e :: es => e ++ sep :: Join es sep

/-- Go `s[low:]` on a slice: a run-time panic when `low` exceeds the length. -/
def sliceFrom {α : Type} (s : List α) (low : Nat) : Except RuntimeError (List α) :=
  if low ≤ s.length then .ok (s.drop low) else .error (.sliceBoundsOutOfRange low s.length)

/-- Go `uint64` addition. -/
def addUint64 (a b : Nat) : Nat := (a + b) % 2 ^ 64

/-- Go `uint64` subtraction of two `uint64` values. -/
def subUint64 (a b : Nat) : Nat := (a + 2 ^ 64 - b) % 2 ^ 64

/-! ## performance -/

namespace performance

structure DiskIOMetrics where
  ReadBytes : Nat
  WriteBytes : Nat
  IOPSRead : Nat
  IOPSWrite : Nat
  deriving DecidableEq, Repr

structure NetworkIOMetrics where
  BytesSent : Nat
  BytesRecv : Nat
  PacketsSent : Nat
  PacketsRecv : Nat
  deriving DecidableEq, Repr

structure Temperatures where
  CPU : Float64
  GPU : Float64
  Disk : List Float64
  deriving DecidableEq, Repr

/-- Go `performance.Metrics`. -/
structure Metrics where
  CPUUsage : Float64
  MemoryUsage : Float64
  DiskIO : DiskIOMetrics
  NetworkIO : NetworkIOMetrics
  SystemLoad : List Float64
  Temperatures : Temperatures
  deriving DecidableEq, Repr

/-- Go `disk.IOCountersStat`, the fields read. -/
structure DiskCounters where
  ReadBytes : Nat
  WriteBytes : Nat
  ReadCount : Nat
  WriteCount : Nat
  deriving DecidableEq, Repr

/-- Go `net.IOCountersStat`, the fields read. -/
structure NetCounters where
  BytesSent : Nat
  BytesRecv : Nat
  PacketsSent : Nat
  PacketsRecv : Nat
  deriving DecidableEq, Repr

/-- Go `load.AvgStat`. -/
structure AvgStat where
  Load1 : Float64
  Load5 : Float64
  Load15 : Float64
  deriving DecidableEq, Repr

/-- Go `host.TemperatureStat`, the fields read. -/
structure TemperatureStat where
  SensorKey : String
  Temperature : Float64
  deriving DecidableEq, Repr

/-- What the operating-system queries answer during one call of
`performance.Collect`; the counters are queried twice, one second apart. -/
structure Queries where
  /-- Go `cpu.Percent(time.Second, false)` -/
  cpuPercent : Except Error (List Float64)
  /-- Go `mem.VirtualMemory()` -/
  virtualMemory : Except Error hardware.VirtualMemoryStat
  /-- Go `disk.IOCounters()`, first call; a map from device to counters -/
  diskBefore : Except Error (List (String × DiskCounters))
  /-- Go `disk.IOCounters()`, second call -/
  diskAfter : Except Error (List (String × DiskCounters))
  /-- Go `net.IOCounters(false)`, first call -/
  netBefore : Except Error (List NetCounters)
  /-- Go `net.IOCounters(false)`, second call -/
  netAfter : Except Error (List NetCounters)
  /-- Go `load.Avg()` -/
  loadAvg : Except Error AvgStat
  /-- Go `host.SensorsTemperatures()` -/
  sensors : Except Error (List TemperatureStat)

/-- The zero values `DiskIOMetrics{}`, `NetworkIOMetrics{}`, `Temperatures{}`. -/
def DiskIOMetrics.zero : DiskIOMetrics := ⟨0, 0, 0, 0⟩

def NetworkIOMetrics.zero : NetworkIOMetrics := ⟨0, 0, 0, 0⟩

def Temperatures.zero : Temperatures := ⟨hardware.zeroFloat, hardware.zeroFloat, []⟩

/-- The zero value of `performance.Metrics` (`var metrics Metrics`). -/
def Metrics.zero : Metrics :=
  ⟨hardware.zeroFloat, hardware.zeroFloat, DiskIOMetrics.zero, NetworkIOMetrics.zero, [],
    Temperatures.zero⟩

/-- Go `getCPUUsage`: the returned pair `(float64, error)`, or a panic. -/
def getCPUUsage (q : Queries) : Except RuntimeError (Float64 × Option Error) :=
  match q.cpuPercent with
  | .error err => .ok (hardware.zeroFloat, some err)
  | .ok percent => do
    let p0 ← hardware.index percent 0
    pure (p0, none)

/-- Go `getMemoryUsage`. -/
def getMemoryUsage (q : Queries) : Float64 × Option Error :=
  match q.virtualMemory with
  | .error err => (hardware.zeroFloat, some err)
  | .ok memInfo => (memInfo.UsedPercent, none)

/-- The loop of `getDiskIO` over the devices of the second reading: a device
absent from the first reading is skipped, the others add their differences to
the four totals. -/
def diskLoop (before : List (String × DiskCounters)) (totals : DiskIOMetrics) :
    List (String × DiskCounters) → DiskIOMetrics
  | [] => totals
  | (device, afterStat) :: rest =>
    match before.lookup device with
    | none => diskLoop before totals rest
    | some beforeStat =>
      diskLoop before
        { ReadBytes := addUint64 totals.ReadBytes
            (subUint64 afterStat.ReadBytes beforeStat.ReadBytes)
          WriteBytes := addUint64 totals.WriteBytes
            (subUint64 afterStat.WriteBytes beforeStat.WriteBytes)
          IOPSRead := addUint64 totals.IOPSRead
            (subUint64 afterStat.ReadCount beforeStat.ReadCount)
          IOPSWrite := addUint64 totals.IOPSWrite
            (subUint64 afterStat.WriteCount beforeStat.WriteCount) } rest

/-- Go `getDiskIO`. -/
def getDiskIO (q : Queries) : DiskIOMetrics × Option Error :=
  match q.diskBefore with
  | .error err => (DiskIOMetrics.zero, some err)
  | .ok before =>
    match q.diskAfter with
    | .error err => (DiskIOMetrics.zero, some err)
    | .ok after => (diskLoop before DiskIOMetrics.zero after, none)

/-- Go `getNetworkIO`: the returned pair, or a panic on `after[0]`,
`before[0]`. -/
def getNetworkIO (q : Queries) : Except RuntimeError (NetworkIOMetrics × Option Error) :=
  match q.netBefore with
  | .error err => .ok (NetworkIOMetrics.zero, some err)
  | .ok before =>
    match q.netAfter with
    | .error err => .ok (NetworkIOMetrics.zero, some err)
    | .ok after => do
      let a0 ← hardware.index after 0
      let b0 ← hardware.index before 0
      pure ({ BytesSent := subUint64 a0.BytesSent b0.BytesSent
              BytesRecv := subUint64 a0.BytesRecv b0.BytesRecv
              PacketsSent := subUint64 a0.PacketsSent b0.PacketsSent
              PacketsRecv := subUint64 a0.PacketsRecv b0.PacketsRecv }, none)

/-- Go `getSystemLoad`. -/
def getSystemLoad (q : Queries) : List Float64 × Option Error :=
  match q.loadAvg with
  | .error err => ([], some err)
  | .ok loadAvg => ([loadAvg.Load1, loadAvg.Load5, loadAvg.Load15], none)

/-- The loop of `getTemperatures` over the sensors. -/
def temperatureLoop (t : Temperatures) : List TemperatureStat → Temperatures
  | [] => t
  | temp :: rest =>
    if HasPrefixOf temp.SensorKey "coretemp" then
      temperatureLoop { t with CPU := temp.Temperature } rest
    else if HasPrefixOf temp.SensorKey "acpitz" then
      temperatureLoop { t with GPU := temp.Temperature } rest
    else if HasPrefixOf temp.SensorKey "nvme" then
      temperatureLoop { t with Disk := t.Disk ++ [temp.Temperature] } rest
    else temperatureLoop t rest

/-- Go `getTemperatures`. -/
def getTemperatures (q : Queries) : Temperatures × Option Error :=
  match q.sensors with
  | .error err => (Temperatures.zero, some err)
  | .ok temps => (temperatureLoop Temperatures.zero temps, none)

/-- Go `performance.Collect`: every sub-probe is called in turn and its value
is stored in the record, whatever error comes with it. -/
def Collect (q : Queries) : Except RuntimeError Metrics := do
  let metrics := Metrics.zero
  let (cpuUsage, _) ← getCPUUsage q
  let metrics := { metrics with CPUUsage := cpuUsage }
  let (memoryUsage, _) := getMemoryUsage q
  let metrics := { metrics with MemoryUsage := memoryUsage }
  let (diskMetrics, _) := getDiskIO q
  let metrics := { metrics with DiskIO := diskMetrics }
  let (networkMetrics, _) ← getNetworkIO q
  let metrics := { metrics with NetworkIO := networkMetrics }
  let (systemLoad, _) := getSystemLoad q
  let metrics := { metrics with SystemLoad := systemLoad }
  let (temperatures, _) := getTemperatures q
  let metrics := { metrics with Temperatures := temperatures }
  pure metrics

end performance

/-! ## network -/

namespace network

structure Interface where
  Name : String
  MACAddress : String
  IPAddresses : List String
  Status : String
  Speed : Nat
  BytesSent : Nat
  BytesRecv : Nat
  deriving DecidableEq, Repr

structure Connection where
  LocalAddr : String
  LocalPort : Int
  RemoteAddr : String
  RemotePort : Int
  State : String
  Process : String
  deriving DecidableEq, Repr

structure RoutingEntry where
  Destination : String
  Gateway : String
  Interface : String
  deriving DecidableEq, Repr

structure DNSConfig where
  Servers : List String
  Domain : String
  deriving DecidableEq, Repr

structure AdvancedNetworkInfo where
  Latency : Float64
  PacketLoss : Float64
  DownloadSpeed : Float64
  UploadSpeed : Float64
  RoutingTable : List RoutingEntry
  DNSConfiguration : DNSConfig
  VPNStatus : String
  deriving DecidableEq, Repr

/-- Go `network.Info`. -/
structure Info where
  Interfaces : List Interface
  Connections : List Connection
  DNSServers : List String
  PublicIP : String
  AdvancedInfo : AdvancedNetworkInfo
  deriving DecidableEq, Repr

/-- What the outside answers during one call of `network.Collect`.  The
sub-probes `getNetworkInterfaces`, `getNetworkConnections`, `getDNSServers`,
`measureLatency`, `measurePacketLoss`, `measureNetworkSpeed`,
`getDNSConfiguration` and `getVPNStatus` are taken by the pair they return
(`measureNetworkSpeed`, which indexes `endCounters[0]`, by that or the panic
it dies of). -/
structure Queries where
  /-- Go `getNetworkInterfaces()` -/
  interfaces : List Interface × Option Error
  /-- Go `getNetworkConnections()` -/
  connections : List Connection × Option Error
  /-- Go `getDNSServers()` -/
  dnsServers : List String × Option Error
  /-- Go `http.Get("https://api.ipify.org")`; on a response, the outcome of
  `ioutil.ReadAll(resp.Body)` -/
  ipify : Except Error (Except Error String)
  /-- Go `measureLatency("8.8.8.8")` -/
  latency : Float64 × Option Error
  /-- Go `measurePacketLoss("8.8.8.8")` -/
  packetLoss : Float64 × Option Error
  /-- Go `measureNetworkSpeed()` -/
  speed : Except RuntimeError (Float64 × Float64 × Option Error)
  /-- Go `exec.Command("route", "-n").Output()` -/
  route : Except Error String
  /-- Go `getDNSConfiguration()` -/
  dnsConfiguration : DNSConfig × Option Error
  /-- Go `getVPNStatus()` -/
  vpnStatus : String × Option Error

/-- The zero values `DNSConfig{}`, `AdvancedNetworkInfo{}` and that of
`network.Info`. -/
def DNSConfig.zero : DNSConfig := ⟨[], ""⟩

def AdvancedNetworkInfo.zero : AdvancedNetworkInfo :=
  ⟨hardware.zeroFloat, hardware.zeroFloat, hardware.zeroFloat, hardware.zeroFloat, [],
    DNSConfig.zero, ""⟩

def Info.zero : Info := ⟨[], [], [], "", AdvancedNetworkInfo.zero⟩

/-- Go `getPublicIP`. -/
def getPublicIP (q : Queries) : String × Option Error :=
  match q.ipify with
  | .error err => ("", some err)
  | .ok body =>
    match body with
    | .error err => ("", some err)
    | .ok ip => (ip, none)

/-- The loop of `getRoutingTable` over the lines after the two header lines:
a line of at least eight fields gives an entry. -/
def routeLoop (entries : List RoutingEntry) :
    List (List Char) → Except RuntimeError (List RoutingEntry)
  | [] => .ok entries
  | line :: rest => do
    let fields := Fields line
    if fields.length ≥ 8 then
      let f0 ← hardware.index fields 0
      let f1 ← hardware.index fields 1
      let f7 ← hardware.index fields 7
      routeLoop (entries ++ [{ Destination := String.mk f0
                               Gateway := String.mk f1
                               Interface := String.mk f7 }]) rest
    else routeLoop entries rest

/-- Go `getRoutingTable`: the returned pair `([]RoutingEntry, error)`, or a
panic. -/
def getRoutingTable (q : Queries) : Except RuntimeError (List RoutingEntry × Option Error) :=
  match q.route with
  | .error err => .ok ([], some err)
  | .ok out => do
    let lines := Split out.toList '\n'
    let tail ← sliceFrom lines 2
    let entries ← routeLoop [] tail
    pure (entries, none)

/-- Go `GetAdvancedNetworkInfo`: a field is set when its probe returns no
error; the function itself always returns a nil error. -/
def GetAdvancedNetworkInfo (q : Queries) :
    Except RuntimeError (AdvancedNetworkInfo × Option Error) := do
  let info := AdvancedNetworkInfo.zero
  let (latency, err) := q.latency
  let info := if err = none then { info with Latency := latency } else info
  let (packetLoss, err) := q.packetLoss
  let info := if err = none then { info with PacketLoss := packetLoss } else info
  let (downloadSpeed, uploadSpeed, err) ← q.speed
  let info :=
    if err = none then { info with DownloadSpeed := downloadSpeed, UploadSpeed := uploadSpeed }
    else info
  let (routingTable, err) ← getRoutingTable q
  let info := if err = none then { info with RoutingTable := routingTable } else info
  let (dnsConfig, err) := q.dnsConfiguration
  let info := if err = none then { info with DNSConfiguration := dnsConfig } else info
  let (vpnStatus, err) := q.vpnStatus
  let info := if err = none then { info with VPNStatus := vpnStatus } else info
  pure (info, none)

/-- Go `network.Collect`. -/
def Collect (q : Queries) : Except RuntimeError Info := do
  let info := Info.zero
  let (interfaces, _) := q.interfaces
  let info := { info with Interfaces := interfaces }
  let (connections, _) := q.connections
  let info := { info with Connections := connections }
  let (dnsServers, _) := q.dnsServers
  let info := { info with DNSServers := dnsServers }
  let (publicIP, _) := getPublicIP q
  let info := { info with PublicIP := publicIP }
  let (advancedInfo, _) ← GetAdvancedNetworkInfo q
  let info := { info with AdvancedInfo := advancedInfo }
  pure info

end network

/-! ## software (records) -/

namespace software

structure OSInfo where
  Name : String
  Version : String
  Architecture : String
  Hostname : String
  deriving DecidableEq, Repr

structure InstalledApp where
  Name : String
  Version : String
  InstallDate : String
  deriving DecidableEq, Repr

structure Process where
  Name : String
  PID : Int
  CPUUsage : Float64
  MemUsage : Nat
  deriving DecidableEq, Repr

structure Service where
  Name : String
  Status : String
  deriving DecidableEq, Repr

/-- Go `software.Info`. -/
structure Info where
  OS : OSInfo
  Kernel : String
  InstalledApps : List InstalledApp
  RunningProcesses : List Process
  SystemServices : List Service
  deriving DecidableEq, Repr

/-- The zero value of `software.Info`. -/
def Info.zero : Info := ⟨⟨"", "", "", ""⟩, "", [], [], []⟩

end software

/-! ## encoding/json -/

/-- A JSON text as `encoding/json` writes it, up to white space and the
spelling of numbers and strings: the members of an object are kept in the
order in which they are written. -/
inductive JSON where
  | null
  | string (s : String)
  | int (n : Int)
  | uint (n : Nat)
  | float (f : Float64)
  | time (t : Nat)
  | array (items : List JSON)
  | object (members : List (String × JSON))
  deriving Repr

/-- A `float64` that is neither an infinity nor a NaN: its exponent bits are
not all ones. -/
def Float64.isFinite (f : Float64) : Bool := (f.bits / 2 ^ 52) % 2048 ≠ 2047

mutual
/-- The values `encoding/json` can write: every `float64` in them is finite. -/
def JSON.supported : JSON → Bool
  | .float f => f.isFinite
  | .array items => supportedItems items
  | .object members => supportedMembers members
  | _ => true
/-- Every item of an array is supported. -/
def supportedItems : List JSON → Bool
  | [] => true
  | j :: js => j.supported && supportedItems js
/-- Every member of an object is supported. -/
def supportedMembers : List (String × JSON) → Bool
  | [] => true
  | (_, j) :: ms => j.supported && supportedMembers ms
end

mutual
/-- The keys of an object and, under each key, the keys of the object it
holds, in the order written; arrays are not entered. -/
def JSON.keyPaths : JSON → List (List String)
  | .object members => memberPaths members
  | _ => []
/-- The key paths of a list of members. -/
def memberPaths : List (String × JSON) → List (List String)
  | [] => []
  | (k, v) :: ms => ([k] :: v.keyPaths.map (k :: ·)) ++ memberPaths ms
end

/-- The member of an object under a key. -/
def JSON.member (j : JSON) (key : String) : Option JSON :=
  match j with
  | .object members => members.lookup key
  | _ => none

/-- The encoding of a Go slice: `null` for the nil slice, an array
otherwise. -/
def sliceJSON {α : Type} (f : α → JSON) : List α → JSON
  | [] => .null
  | a :: as => .array ((a :: as).map f)

/-- The encoding of Go `hardware.CPUInfo`, from its field tags. -/
def hardware.CPUInfo.toJSON (c : hardware.CPUInfo) : JSON :=
  .object
    [ ("model", JSON.string c.Model)
    , ("cores", JSON.int c.Cores)
    , ("threads", JSON.int c.Threads)
    , ("frequency_ghz", JSON.float c.Frequency)
    , ("temperature_celsius", JSON.float c.Temperature)
    , ("usage_percent", JSON.float c.Usage) ]

/-- The encoding of Go `hardware.MemoryInfo`, from its field tags. -/
def hardware.MemoryInfo.toJSON (m : hardware.MemoryInfo) : JSON :=
  .object
    [ ("total_bytes", JSON.uint m.Total)
    , ("used_bytes", JSON.uint m.Used)
    , ("free_bytes", JSON.uint m.Free)
    , ("usage_percent", JSON.float m.UsagePercent) ]

/-- The encoding of Go `hardware.DiskInfo`, from its field tags. -/
def hardware.DiskInfo.toJSON (d : hardware.DiskInfo) : JSON :=
  .object
    [ ("device", JSON.string d.Device)
    , ("type", JSON.string d.Type_)
    , ("total_bytes", JSON.uint d.Total)
    , ("used_bytes", JSON.uint d.Used)
    , ("free_bytes", JSON.uint d.Free)
    , ("usage_percent", JSON.float d.UsagePercent) ]

/-- The encoding of Go `hardware.GPUInfo`, from its field tags. -/
def hardware.GPUInfo.toJSON (g : hardware.GPUInfo) : JSON :=
  .object
    [ ("model", JSON.string g.Model)
    , ("memory_bytes", JSON.uint g.Memory)
    , ("temperature_celsius", JSON.float g.Temperature)
    , ("usage_percent", JSON.float g.Usage) ]

/-- The encoding of Go `hardware.Motherboard`, from its field tags. -/
def hardware.Motherboard.toJSON (m : hardware.Motherboard) : JSON :=
  .object
    [ ("manufacturer", JSON.string m.Manufacturer)
    , ("model", JSON.string m.Model)
    , ("serial_number", JSON.string m.SerialNumber) ]

/-- The encoding of Go `hardware.BIOSInfo`, from its field tags. -/
def hardware.BIOSInfo.toJSON (b : hardware.BIOSInfo) : JSON :=
  .object
    [ ("vendor", JSON.string b.Vendor)
    , ("version", JSON.string b.Version)
    , ("release_date", JSON.string b.ReleaseDate) ]

/-- The encoding of Go `hardware.USBDevice`, from its field tags. -/
def hardware.USBDevice.toJSON (u : hardware.USBDevice) : JSON :=
  .object
    [ ("name", JSON.string u.Name)
    , ("vendor_id", JSON.string u.VendorID)
    , ("product_id", JSON.string u.ProductID)
    , ("serial_number", JSON.string u.SerialNumber) ]

/-- The encoding of Go `hardware.Info`, from its field tags. -/
def hardware.Info.toJSON (i : hardware.Info) : JSON :=
  .object
    [ ("cpu", hardware.CPUInfo.toJSON i.CPU)
    , ("memory", hardware.MemoryInfo.toJSON i.Memory)
    , ("disk", sliceJSON hardware.DiskInfo.toJSON i.Disk)
    , ("gpu", sliceJSON hardware.GPUInfo.toJSON i.GPU)
    , ("motherboard", hardware.Motherboard.toJSON i.Motherboard)
    , ("bios", hardware.BIOSInfo.toJSON i.BIOS)
    , ("usb_devices", sliceJSON hardware.USBDevice.toJSON i.USB) ]

/-- The encoding of Go `software.OSInfo`, from its field tags. -/
def software.OSInfo.toJSON (o : software.OSInfo) : JSON :=
  .object
    [ ("name", JSON.string o.Name)
    , ("version", JSON.string o.Version)
    , ("architecture", JSON.string o.Architecture)
    , ("hostname", JSON.string o.Hostname) ]

/-- The encoding of Go `software.InstalledApp`, from its field tags. -/
def software.InstalledApp.toJSON (x : software.InstalledApp) : JSON :=
  .object
    [ ("name", JSON.string x.Name)
    , ("version", JSON.string x.Version)
    , ("install_date", JSON.string x.InstallDate) ]

/-- The encoding of Go `software.Process`, from its field tags. -/
def software.Process.toJSON (x : software.Process) : JSON :=
  .object
    [ ("name", JSON.string x.Name)
    , ("pid", JSON.int x.PID)
    , ("cpu_usage_percent", JSON.float x.CPUUsage)
    , ("memory_usage_bytes", JSON.uint x.MemUsage) ]

/-- The encoding of Go `software.Service`, from its field tags. -/
def software.Service.toJSON (x : software.Service) : JSON :=
  .object
    [ ("name", JSON.string x.Name)
    , ("status", JSON.string x.Status) ]

/-- The encoding of Go `software.Info`, from its field tags. -/
def software.Info.toJSON (i : software.Info) : JSON :=
  .object
    [ ("os", software.OSInfo.toJSON i.OS)
    , ("kernel", JSON.string i.Kernel)
    , ("installed_apps", sliceJSON software.InstalledApp.toJSON i.InstalledApps)
    , ("running_processes", sliceJSON software.Process.toJSON i.RunningProcesses)
    , ("system_services", sliceJSON software.Service.toJSON i.SystemServices) ]

/-- The encoding of Go `network.Interface`, from its field tags. -/
def network.Interface.toJSON (x : network.Interface) : JSON :=
  .object
    [ ("name", JSON.string x.Name)
    , ("mac_address", JSON.string x.MACAddress)
    , ("ip_addresses", sliceJSON JSON.string x.IPAddresses)
    , ("status", JSON.string x.Status)
    , ("speed_mbps", JSON.uint x.Speed)
    , ("bytes_sent", JSON.uint x.BytesSent)
    , ("bytes_recv", JSON.uint x.BytesRecv) ]

/-- The encoding of Go `network.Connection`, from its field tags. -/
def network.Connection.toJSON (x : network.Connection) : JSON :=
  .object
    [ ("local_address", JSON.string x.LocalAddr)
    , ("local_port", JSON.int x.LocalPort)
    , ("remote_address", JSON.string x.RemoteAddr)
    , ("remote_port", JSON.int x.RemotePort)
    , ("state", JSON.string x.State)
    , ("process", JSON.string x.Process) ]

/-- The encoding of Go `network.RoutingEntry`, from its field tags. -/
def network.RoutingEntry.toJSON (x : network.RoutingEntry) : JSON :=
  .object
    [ ("destination", JSON.string x.Destination)
    , ("gateway", JSON.string x.Gateway)
    , ("interface", JSON.string x.Interface) ]

/-- The encoding of Go `network.DNSConfig`, from its field tags. -/
def network.DNSConfig.toJSON (x : network.DNSConfig) : JSON :=
  .object
    [ ("servers", sliceJSON JSON.string x.Servers)
    , ("domain", JSON.string x.Domain) ]

/-- The encoding of Go `network.AdvancedNetworkInfo`, from its field tags. -/
def network.AdvancedNetworkInfo.toJSON (x : network.AdvancedNetworkInfo) : JSON :=
  .object
    [ ("latency_ms", JSON.float x.Latency)
    , ("packet_loss_percent", JSON.float x.PacketLoss)
    , ("download_speed_mbps", JSON.float x.DownloadSpeed)
    , ("upload_speed_mbps", JSON.float x.UploadSpeed)
    , ("routing_table", sliceJSON network.RoutingEntry.toJSON x.RoutingTable)
    , ("dns_configuration", network.DNSConfig.toJSON x.DNSConfiguration)
    , ("vpn_status", JSON.string x.VPNStatus) ]

/-- The encoding of Go `network.Info`, from its field tags. -/
def network.Info.toJSON (i : network.Info) : JSON :=
  .object
    [ ("interfaces", sliceJSON network.Interface.toJSON i.Interfaces)
    , ("connections", sliceJSON network.Connection.toJSON i.Connections)
    , ("dns_servers", sliceJSON JSON.string i.DNSServers)
    , ("public_ip", JSON.string i.PublicIP)
    , ("advanced_info", network.AdvancedNetworkInfo.toJSON i.AdvancedInfo) ]

/-- The encoding of Go `performance.DiskIOMetrics`, from its field tags. -/
def performance.DiskIOMetrics.toJSON (x : performance.DiskIOMetrics) : JSON :=
  .object
    [ ("read_bytes_per_sec", JSON.uint x.ReadBytes)
    , ("write_bytes_per_sec", JSON.uint x.WriteBytes)
    , ("iops_read", JSON.uint x.IOPSRead)
    , ("iops_write", JSON.uint x.IOPSWrite) ]

/-- The encoding of Go `performance.NetworkIOMetrics`, from its field tags. -/
def performance.NetworkIOMetrics.toJSON (x : performance.NetworkIOMetrics) : JSON :=
  .object
    [ ("bytes_sent_per_sec", JSON.uint x.BytesSent)
    , ("bytes_recv_per_sec", JSON.uint x.BytesRecv)
    , ("packets_sent_per_sec", JSON.uint x.PacketsSent)
    , ("packets_recv_per_sec", JSON.uint x.PacketsRecv) ]

/-- The encoding of Go `performance.Temperatures`, from its field tags. -/
def performance.Temperatures.toJSON (x : performance.Temperatures) : JSON :=
  .object
    [ ("cpu_celsius", JSON.float x.CPU)
    , ("gpu_celsius", JSON.float x.GPU)
    , ("disk_celsius", sliceJSON JSON.float x.Disk) ]

/-- The encoding of Go `performance.Metrics`, from its field tags. -/
def performance.Metrics.toJSON (m : performance.Metrics) : JSON :=
  .object
    [ ("cpu_usage_percent", JSON.float m.CPUUsage)
    , ("memory_usage_percent", JSON.float m.MemoryUsage)
    , ("disk_io", performance.DiskIOMetrics.toJSON m.DiskIO)
    , ("network_io", performance.NetworkIOMetrics.toJSON m.NetworkIO)
    , ("system_load", sliceJSON JSON.float m.SystemLoad)
    , ("temperatures", performance.Temperatures.toJSON m.Temperatures) ]

/-- The snapshot `main` serializes. -/
abbrev Snapshot := SystemInfo software.Info network.Info performance.Metrics

/-- The encoding of Go `main.SystemInfo`, from its field tags. -/
def SystemInfo.toJSON (info : Snapshot) : JSON :=
  .object
    [ ("timestamp", JSON.time info.Timestamp)
    , ("hardware", hardware.Info.toJSON info.Hardware)
    , ("software", software.Info.toJSON info.Software)
    , ("network", network.Info.toJSON info.Network)
    , ("performance", performance.Metrics.toJSON info.Performance) ]

/-- Go `json.UnsupportedValueError`. -/
inductive MarshalError where
  | unsupportedValue
  deriving DecidableEq, Repr

/-- Go `json.MarshalIndent(info, "", "  ")` on a snapshot, up to the text of
the leaves: the encoder fails on a `float64` that is not finite and writes
every field of every record otherwise (no tag has `omitempty`). -/
def MarshalIndent (info : Snapshot) : Except MarshalError JSON :=
  if (SystemInfo.toJSON info).supported then .ok (SystemInfo.toJSON info)
  else .error .unsupportedValue

/-- The key paths that the field tags of `SystemInfo` and of the records it
holds declare, in declaration order. -/
def declaredKeys : List (List String) :=
  [ ["timestamp"]
  , ["hardware"]
  , ["hardware", "cpu"]
  , ["hardware", "cpu", "model"]
  , ["hardware", "cpu", "cores"]
  , ["hardware", "cpu", "threads"]
  , ["hardware", "cpu", "frequency_ghz"]
  , ["hardware", "cpu", "temperature_celsius"]
  , ["hardware", "cpu", "usage_percent"]
  , ["hardware", "memory"]
  , ["hardware", "memory", "total_bytes"]
  , ["hardware", "memory", "used_bytes"]
  , ["hardware", "memory", "free_bytes"]
  , ["hardware", "memory", "usage_percent"]
  , ["hardware", "disk"]
  , ["hardware", "gpu"]
  , ["hardware", "motherboard"]
  , ["hardware", "motherboard", "manufacturer"]
  , ["hardware", "motherboard", "model"]
  , ["hardware", "motherboard", "serial_number"]
  , ["hardware", "bios"]
  , ["hardware", "bios", "vendor"]
  , ["hardware", "bios", "version"]
  , ["hardware", "bios", "release_date"]
  , ["hardware", "usb_devices"]
  , ["software"]
  , ["software", "os"]
  , ["software", "os", "name"]
  , ["software", "os", "version"]
  , ["software", "os", "architecture"]
  , ["software", "os", "hostname"]
  , ["software", "kernel"]
  , ["software", "installed_apps"]
  , ["software", "running_processes"]
  , ["software", "system_services"]
  , ["network"]
  , ["network", "interfaces"]
  , ["network", "connections"]
  , ["network", "dns_servers"]
  , ["network", "public_ip"]
  , ["network", "advanced_info"]
  , ["network", "advanced_info", "latency_ms"]
  , ["network", "advanced_info", "packet_loss_percent"]
  , ["network", "advanced_info", "download_speed_mbps"]
  , ["network", "advanced_info", "upload_speed_mbps"]
  , ["network", "advanced_info", "routing_table"]
  , ["network", "advanced_info", "dns_configuration"]
  , ["network", "advanced_info", "dns_configuration", "servers"]
  , ["network", "advanced_info", "dns_configuration", "domain"]
  , ["network", "advanced_info", "vpn_status"]
  , ["performance"]
  , ["performance", "cpu_usage_percent"]
  , ["performance", "memory_usage_percent"]
  , ["performance", "disk_io"]
  , ["performance", "disk_io", "read_bytes_per_sec"]
  , ["performance", "disk_io", "write_bytes_per_sec"]
  , ["performance", "disk_io", "iops_read"]
  , ["performance", "disk_io", "iops_write"]
  , ["performance", "network_io"]
  , ["performance", "network_io", "bytes_sent_per_sec"]
  , ["performance", "network_io", "bytes_recv_per_sec"]
  , ["performance", "network_io", "packets_sent_per_sec"]
  , ["performance", "network_io", "packets_recv_per_sec"]
  , ["performance", "system_load"]
  , ["performance", "temperatures"]
  , ["performance", "temperatures", "cpu_celsius"]
  , ["performance", "temperatures", "gpu_celsius"]
  , ["performance", "temperatures", "disk_celsius"] ]

/-! ## Reading the configuration, line by line -/

/-- The key that `readLine` assigns for a line, if it assigns one: the same
tests as in the loop body of `ReadINIFile`. -/
def lineKey (line : List Char) : Option String :=
  let line := TrimSpace line
  if line = [] ∨ HasPrefix line ';' ∨ HasPrefix line '#' then none
  else
    match SplitN2 line '=' with
    | [k, _] => some (String.mk (TrimSpace k))
    | _ => none

/-! ## Concrete inputs used to evaluate the definitions -/

/-- Hardware queries that all answer. -/
def sampleQueries : hardware.Queries :=
  { cpuInfo := .ok [⟨"cpu0", 4, ⟨0⟩⟩]
    cpuPercent := ([⟨7⟩], none)
    virtualMemory := .ok ⟨8, 3, 5, ⟨1⟩⟩
    partitions := .ok [⟨"/dev/sda1", "/", "ext4"⟩, ⟨"/dev/sdb1", "/mnt", "vfat"⟩]
    usage := fun m => if m = "/" then .ok ⟨100, 40, 60, ⟨2⟩⟩ else .error "not mounted"
    gpu := .ok [⟨some ⟨some ⟨"gpu0"⟩⟩⟩]
    product := .ok ⟨"vendor", "board", "sn1"⟩
    bios := .ok ⟨"biosvendor", "1.0", "2020-01-01"⟩
    block := .ok [⟨true, "stick", "usbvendor", "sn2"⟩, ⟨false, "ssd", "v", "sn3"⟩]
    divThousand := fun x => x }

/-- Hardware queries that all fail. -/
def failingQueries : hardware.Queries :=
  { cpuInfo := .error "no cpu"
    cpuPercent := ([], some "no cpu")
    virtualMemory := .error "no memory"
    partitions := .error "no disk"
    usage := fun _ => .error "no disk"
    gpu := .error "no gpu"
    product := .error "no product"
    bios := .error "no bios"
    block := .error "no block"
    divThousand := fun x => x }

/-- The CPU information query answers, the CPU usage query returns an error
and no sample. -/
def emptyPercentQueries : hardware.Queries :=
  { sampleQueries with cpuPercent := ([], some "context deadline exceeded") }

/-- A run with the given configuration text, hardware queries and HTTP
status; the other collectors return, the serializer yields two bytes. -/
def sampleWorld (config : String) (q : hardware.Queries) (status : Int) :
    World Nat Nat Nat :=
  { configFile := some config
    now := 0
    hw := q
    software := .ok 1
    network := .ok 2
    performance := .ok 3
    marshal := fun _ => some [123, 125]
    aes := toyBlock
    rand := List.range 16
    post := fun _ _ _ => .ok ⟨status, "status"⟩ }

/-- A complete configuration with a 16-byte key. -/
def goodConfig : String :=
  "; collector\nserver_address = http://h/p?a=b\nencryption_key=000102030405060708090a0b0c0d0e0f\n"

/-- A configuration whose key is not hexadecimal. -/
def badKeyConfig : String := "server_address=http://h\nencryption_key=zz\n"

/-- A configuration whose key decodes to 10 bytes. -/
def shortKeyConfig : String := "server_address=http://h\nencryption_key=00010203040506070809\n"

/-- A configuration without `encryption_key`. -/
def noKeyConfig : String := "server_address=http://h\n# encryption_key=00\n"

/-- Performance queries that all answer, with the given answer of
`mem.VirtualMemory()`. -/
def samplePerformance (vm : Except Error hardware.VirtualMemoryStat) : performance.Queries :=
  { cpuPercent := .ok [⟨7⟩]
    virtualMemory := vm
    diskBefore := .ok [("sda", ⟨10, 20, 1, 2⟩)]
    diskAfter := .ok [("sda", ⟨15, 20, 2, 2⟩), ("sdb", ⟨1, 1, 1, 1⟩)]
    netBefore := .ok [⟨100, 200, 3, 4⟩]
    netAfter := .ok [⟨150, 260, 5, 8⟩]
    loadAvg := .ok ⟨⟨1⟩, ⟨2⟩, ⟨3⟩⟩
    sensors := .ok [⟨"coretemp_core0", ⟨40⟩⟩, ⟨"nvme0", ⟨30⟩⟩] }

/-- Network queries that all answer, with the given output of `route -n` and
the given outcome of the public-IP request. -/
def sampleNetwork (route : Except Error String) (ipify : Except Error (Except Error String)) :
    network.Queries :=
  { interfaces := ([⟨"eth0", "aa:bb", ["10.0.0.2"], "up", 1500, 1, 2⟩], none)
    connections := ([], none)
    dnsServers := (["10.0.0.1"], none)
    ipify := ipify
    latency := (⟨5⟩, none)
    packetLoss := (hardware.zeroFloat, some "ping failed")
    speed := .ok (⟨8⟩, ⟨9⟩, none)
    route := route
    dnsConfiguration := (⟨["10.0.0.1"], "lan"⟩, none)
    vpnStatus := ("Inativo", none) }

/-- An output of `route -n` with its two header lines and one route. -/
def routeOutput : String :=
  "Kernel IP routing table\nDestination Gateway Genmask Flags Metric Ref Use Iface\n0.0.0.0 10.0.0.1 0.0.0.0 UG 100 0 0 eth0\n"

/-- The snapshot of a run in which every probe failed. -/
def zeroSnapshot : Snapshot :=
  { Timestamp := 0
    Hardware := hardware.Info.zero
    Software := software.Info.zero
    Network := network.Info.zero
    Performance := performance.Metrics.zero }

/-- A snapshot of a run in which some probes answered: one disk, one process,
one route, a public IP and three load averages. -/
def sampleSnapshot : Snapshot :=
  { Timestamp := 1
    Hardware := { hardware.Info.zero with Disk := [⟨"/dev/sda1", "ext4", 100, 40, 60, ⟨2⟩⟩] }
    Software := { software.Info.zero with RunningProcesses := [⟨"init", 1, ⟨0⟩, 4096⟩] }
    Network :=
      { network.Info.zero with
        PublicIP := "203.0.113.5"
        AdvancedInfo :=
          { network.AdvancedNetworkInfo.zero with
            RoutingTable := [⟨"0.0.0.0", "10.0.0.1", "eth0"⟩] } }
    Performance := { performance.Metrics.zero with SystemLoad := [⟨1⟩, ⟨2⟩, ⟨3⟩] } }

/-- The snapshot `zeroSnapshot` with a NaN as memory usage. -/
def nanSnapshot : Snapshot :=
  { zeroSnapshot with
    Performance := { performance.Metrics.zero with MemoryUsage := ⟨0x7FF8000000000000⟩ } }

/-- The text written for `zeroSnapshot`: every key is there, with `null` for a
nil slice, the empty string, or a zero. -/
def zeroSnapshotJSON : JSON :=
  .object
    [ ("timestamp", .time 0)
    , ("hardware", .object
        [ ("cpu", .object
            [ ("model", .string "")
            , ("cores", .int 0)
            , ("threads", .int 0)
            , ("frequency_ghz", .float ⟨0⟩)
            , ("temperature_celsius", .float ⟨0⟩)
            , ("usage_percent", .float ⟨0⟩) ])
        , ("memory", .object
            [ ("total_bytes", .uint 0)
            , ("used_bytes", .uint 0)
            , ("free_bytes", .uint 0)
            , ("usage_percent", .float ⟨0⟩) ])
        , ("disk", .null)
        , ("gpu", .null)
        , ("motherboard", .object
            [ ("manufacturer", .string "")
            , ("model", .string "")
            , ("serial_number", .string "") ])
        , ("bios", .object
            [ ("vendor", .string "")
            , ("version", .string "")
            , ("release_date", .string "") ])
        , ("usb_devices", .null) ])
    , ("software", .object
        [ ("os", .object
            [ ("name", .string "")
            , ("version", .string "")
            , ("architecture", .string "")
            , ("hostname", .string "") ])
        , ("kernel", .string "")
        , ("installed_apps", .null)
        , ("running_processes", .null)
        , ("system_services", .null) ])
    , ("network", .object
        [ ("interfaces", .null)
        , ("connections", .null)
        , ("dns_servers", .null)
        , ("public_ip", .string "")
        , ("advanced_info", .object
            [ ("latency_ms", .float ⟨0⟩)
            , ("packet_loss_percent", .float ⟨0⟩)
            , ("download_speed_mbps", .float ⟨0⟩)
            , ("upload_speed_mbps", .float ⟨0⟩)
            , ("routing_table", .null)
            , ("dns_configuration", .object
                [ ("servers", .null)
                , ("domain", .string "") ])
            , ("vpn_status", .string "") ]) ])
    , ("performance", .object
        [ ("cpu_usage_percent", .float ⟨0⟩)
        , ("memory_usage_percent", .float ⟨0⟩)
        , ("disk_io", .object
            [ ("read_bytes_per_sec", .uint 0)
            , ("write_bytes_per_sec", .uint 0)
            , ("iops_read", .uint 0)
            , ("iops_write", .uint 0) ])
        , ("network_io", .object
            [ ("bytes_sent_per_sec", .uint 0)
            , ("bytes_recv_per_sec", .uint 0)
            , ("packets_sent_per_sec", .uint 0)
            , ("packets_recv_per_sec", .uint 0) ])
        , ("system_load", .null)
        , ("temperatures", .object
            [ ("cpu_celsius", .float ⟨0⟩)
            , ("gpu_celsius", .float ⟨0⟩)
            , ("disk_celsius", .null) ]) ]) ]

/-! ## Evaluation on concrete inputs -/

theorem EncodeToString_eval : EncodeToString [1, 2, 3, 4] = "AQIDBA==" := by decide
theorem DecodeString_eval_padded : DecodeString "AQIDBA==" = some [1, 2, 3, 4] := by decide
theorem DecodeString_eval_full : DecodeString "AQID" = some [1, 2, 3] := by decide
theorem DecodeString_eval_one_pad : DecodeString "_-8=" = some [255, 239] := by decide
theorem hexDecodeString_eval : hexDecodeString "0aFf" = .ok [10, 255] := by decide

theorem EncryptJSON_eval_error : (EncryptJSON toyBlock (List.range 20) [1, 2, 3] "000102030405060708090a0b0c0d0e0f").2
    = none := by decide
theorem EncryptJSON_eval_string : (EncryptJSON toyBlock (List.range 20) [1, 2, 3] "000102030405060708090a0b0c0d0e0f").1
    = "AAECAwQFBgcICQoLDA0ODwEBBQ==" := by decide
theorem XORKeyStream_eval_decrypt : XORKeyStream (NewCFBDecrypter (toyBlock (List.range 16)) (List.range 16)) [1, 1, 5]
    = [1, 2, 3] := by decide
theorem XORKeyStream_eval_roundtrip : XORKeyStream (NewCFBDecrypter (toyBlock (List.range 16)) (List.range 16))
    (XORKeyStream (NewCFBEncrypter (toyBlock (List.range 16)) (List.range 16)) (List.range 40))
    = List.range 40 := by decide

theorem and_63 (x : Nat) : x &&& 0x3F = x % 64 := Nat.and_pow_two_sub_one_eq_mod x 6

theorem and_255 (x : Nat) : x &&& 0xFF = x % 256 := Nat.and_pow_two_sub_one_eq_mod x 8

theorem shl_or (a b k : Nat) (hb : b < 2 ^ k) : a <<< k ||| b = a * 2 ^ k + b := by
  rw [Nat.shiftLeft_eq, Nat.mul_comm, ← Nat.mul_add_lt_is_or hb]

theorem b64Index_b64Char (i : Nat) (h : i < 64) : b64Index (b64Char i) = some i := by
  interval_cases i <;> rfl

theorem b64Char_ne_pad (i : Nat) : b64Char i ≠ '=' := by
  by_cases h : i < 64
  · interval_cases i <;> decide
  · have : b64Char i = 'A' := by
      unfold b64Char
      exact List.getD_eq_default _ _ (by simpa [encodeURL] using h)
    rw [this]; decide

theorem pack2 (b0 b1 : Nat) (h1 : b1 < 256) :
    b0 <<< 16 ||| b1 <<< 8 = b0 * 65536 + b1 * 256 := by
  rw [shl_or _ _ 16 (by rw [Nat.shiftLeft_eq]; omega), Nat.shiftLeft_eq]
  omega

theorem pack3 (b0 b1 b2 : Nat) (h1 : b1 < 256) (h2 : b2 < 256) :
    b0 <<< 16 ||| b1 <<< 8 ||| b2 = b0 * 65536 + b1 * 256 + b2 := by
  have e1 := pack2 b0 b1 h1
  have e2 : b0 * 65536 + b1 * 256 = (b0 * 256 + b1) <<< 8 := by
    rw [Nat.shiftLeft_eq]; omega
  rw [e1, e2, shl_or _ _ 8 (by omega)]
  omega

theorem pack4 (v0 v1 v2 v3 : Nat) (h1 : v1 < 64) (h2 : v2 < 64) (h3 : v3 < 64) :
    v0 <<< 18 ||| v1 <<< 12 ||| v2 <<< 6 ||| v3 = v0 * 262144 + v1 * 4096 + v2 * 64 + v3 := by
  have e1 : v0 <<< 18 ||| v1 <<< 12 = v0 * 262144 + v1 * 4096 := by
    rw [shl_or _ _ 18 (by rw [Nat.shiftLeft_eq]; omega), Nat.shiftLeft_eq]
    omega
  have e2 : v0 * 262144 + v1 * 4096 = (v0 * 64 + v1) <<< 12 := by
    rw [Nat.shiftLeft_eq]; omega
  have e3 : (v0 * 64 + v1) <<< 12 ||| v2 <<< 6 = (v0 * 64 + v1) * 4096 + v2 * 64 := by
    rw [shl_or _ _ 12 (by rw [Nat.shiftLeft_eq]; omega), Nat.shiftLeft_eq]
    omega
  have e4 : (v0 * 64 + v1) * 4096 + v2 * 64 = ((v0 * 64 + v1) * 64 + v2) <<< 6 := by
    rw [Nat.shiftLeft_eq]; omega
  rw [e1, e2, e3, e4, shl_or _ _ 6 (by omega)]
  omega

theorem base64Encode_two (b0 b1 : Nat) :
    base64Encode [b0, b1] =
      [b64Char ((b0 <<< 16 ||| b1 <<< 8) >>> 18 &&& 0x3F),
       b64Char ((b0 <<< 16 ||| b1 <<< 8) >>> 12 &&& 0x3F),
       b64Char ((b0 <<< 16 ||| b1 <<< 8) >>> 6 &&& 0x3F), '='] := rfl

/-- Decoding inverts encoding on byte sequences. -/
theorem base64Decode_encode : ∀ (bs : List Nat), (∀ b ∈ bs, b < 256) →
    base64Decode (base64Encode bs) = some bs
  | [], _ => rfl
  | [b0], h => by
    have h0 : b0 < 256 := h b0 (by simp)
    simp only [base64Encode, base64Decode, and_63, Nat.shiftRight_eq_div_pow]
    rw [b64Index_b64Char _ (Nat.mod_lt _ (by decide)),
      b64Index_b64Char _ (Nat.mod_lt _ (by decide))]
    simp only [true_and, if_true, and_255, Nat.shiftRight_eq_div_pow]
    have := pack4 (b0 <<< 16 / 2 ^ 18 % 64) (b0 <<< 16 / 2 ^ 12 % 64) 0 0
      (Nat.mod_lt _ (by decide)) (by decide) (by decide)
    simp only [Nat.zero_shiftLeft, Nat.or_zero] at this
    rw [this, Nat.shiftLeft_eq]
    congr 2
    omega
  | [b0, b1], h => by
    have h0 : b0 < 256 := h b0 (by simp)
    have h1 : b1 < 256 := h b1 (by simp)
    have hp := pack2 b0 b1 h1
    rw [base64Encode_two]
    simp only [base64Decode, and_63, Nat.shiftRight_eq_div_pow, hp]
    rw [b64Index_b64Char _ (Nat.mod_lt _ (by decide)),
      b64Index_b64Char _ (Nat.mod_lt _ (by decide)),
      b64Index_b64Char _ (Nat.mod_lt _ (by decide))]
    simp only [true_and, if_true, if_neg (b64Char_ne_pad _), and_255,
      Nat.shiftRight_eq_div_pow]
    have := pack4 ((b0 * 65536 + b1 * 256) / 2 ^ 18 % 64)
      ((b0 * 65536 + b1 * 256) / 2 ^ 12 % 64) ((b0 * 65536 + b1 * 256) / 2 ^ 6 % 64) 0
      (Nat.mod_lt _ (by decide)) (Nat.mod_lt _ (by decide)) (by decide)
    simp only [Nat.or_zero] at this
    rw [this]
    congr 2
    · omega
    · congr 1; omega
  | b0 :: b1 :: b2 :: rest, h => by
    have h0 : b0 < 256 := h b0 (by simp)
    have h1 : b1 < 256 := h b1 (by simp)
    have h2 : b2 < 256 := h b2 (by simp)
    have ih := base64Decode_encode rest (fun b hb => h b (by simp [hb]))
    simp only [base64Encode, base64Decode, and_63, Nat.shiftRight_eq_div_pow,
      pack3 b0 b1 b2 h1 h2]
    rw [if_neg (fun hc => b64Char_ne_pad _ hc.2),
      b64Index_b64Char _ (Nat.mod_lt _ (by decide)),
      b64Index_b64Char _ (Nat.mod_lt _ (by decide)),
      b64Index_b64Char _ (Nat.mod_lt _ (by decide)),
      b64Index_b64Char _ (Nat.mod_lt _ (by decide))]
    simp only [ih, and_255, Nat.shiftRight_eq_div_pow]
    rw [pack4 _ _ _ _ (Nat.mod_lt _ (by decide)) (Nat.mod_lt _ (by decide))
      (Nat.mod_lt _ (by decide))]
    congr 2
    · omega
    · congr 1
      · omega
      · congr 1; omega

/-! ### CFB stream lemmas -/

theorem xorBytes_length (x y : List Nat) : (xorBytes x y).length = min x.length y.length := by
  simp [xorBytes]

theorem xor_cancel (a k : Nat) : (a ^^^ k) ^^^ k = a := by
  rw [Nat.xor_assoc, Nat.xor_self, Nat.xor_zero]

theorem xorBytes_cancel : ∀ (src ks : List Nat),
    xorBytes (xorBytes src ks) ks = src.take ks.length
  | [], ks => by simp [xorBytes]
  | _ :: _, [] => by simp [xorBytes]
  | a :: src, k :: ks => by
    have ih := xorBytes_cancel src ks
    simp only [xorBytes] at ih ⊢
    simp [xor_cancel, ih]

theorem xorBytes_append_left (a b ks : List Nat) (h : ks.length ≤ a.length) :
    xorBytes (a ++ b) ks = xorBytes a ks := by
  induction a generalizing ks with
  | nil =>
    have : ks = [] := List.length_eq_zero.mp (by simpa using h)
    subst this; simp [xorBytes]
  | cons x a ih =>
    cases ks with
    | nil => simp [xorBytes]
    | cons k ks =>
      have := ih ks (by simpa using h)
      simp only [xorBytes] at this ⊢
      simp [this]

theorem xorBytes_lt (x y : List Nat) (hx : ∀ b ∈ x, b < 256) (hy : ∀ b ∈ y, b < 256) :
    ∀ b ∈ xorBytes x y, b < 256 := by
  induction x generalizing y with
  | nil => simp [xorBytes]
  | cons a x ih =>
    cases y with
    | nil => simp [xorBytes]
    | cons k y =>
      intro b hb
      simp only [xorBytes, List.zipWith_cons_cons, List.mem_cons] at hb
      rcases hb with rfl | hb
      · exact Nat.xor_lt_two_pow (n := 8) (hx a (by simp)) (hy k (by simp))
      · exact ih y (fun c hc => hx c (by simp [hc])) (fun c hc => hy c (by simp [hc])) b hb

theorem copyAt_length (dst : List Nat) (off : Nat) (src : List Nat) :
    (copyAt dst off src).length = dst.length := by
  simp only [copyAt, List.length_append, List.length_take, List.length_drop]
  omega

theorem copyAt_zero_full (dst src : List Nat) (h : dst.length ≤ src.length) :
    copyAt dst 0 src = src.take dst.length := by
  simp [copyAt, Nat.min_eq_left h]

theorem XORKeyStreamLoop_nil (fuel : Nat) (x : cfb) : XORKeyStreamLoop fuel x [] = [] := by
  cases fuel <;> simp [XORKeyStreamLoop]

/-- One iteration of the loop for a stream whose key-stream block is used up. -/
theorem XORKeyStreamLoop_step (fuel : Nat) (blk : List Nat → List Nat)
    (nx out src : List Nat) (dec : Bool) (hsrc : 0 < src.length) :
    XORKeyStreamLoop (fuel + 1) ⟨blk, nx, out, out.length, dec⟩ src =
      xorBytes src (blk nx) ++
        XORKeyStreamLoop fuel
          ⟨blk, copyAt nx 0 (if dec then src else xorBytes src (blk nx)), blk nx,
            (xorBytes src (blk nx)).length, dec⟩
          (src.drop (xorBytes src (blk nx)).length) := by
  cases dec <;> simp [XORKeyStreamLoop, hsrc]

/-- Decrypting what the encrypter wrote gives the plaintext back, for streams
that start on a block boundary with the same feedback register. -/
theorem XORKeyStreamLoop_roundtrip (blk : List Nat → List Nat)
    (hblk : ∀ b, b.length = 16 → (blk b).length = 16) :
    ∀ (f1 f2 : Nat) (src nx oe od : List Nat), nx.length = 16 →
      src.length ≤ f1 → src.length ≤ f2 →
      XORKeyStreamLoop f2 ⟨blk, nx, od, od.length, true⟩
        (XORKeyStreamLoop f1 ⟨blk, nx, oe, oe.length, false⟩ src) = src := by
  intro f1
  induction f1 with
  | zero =>
    intro f2 src nx oe od _ h1 _
    have : src = [] := List.length_eq_zero.mp (by omega)
    subst this
    simp [XORKeyStreamLoop, XORKeyStreamLoop_nil]
  | succ f1 ih =>
    intro f2 src nx oe od hnx h1 h2
    by_cases hsrc : 0 < src.length
    · have hks : (blk nx).length = 16 := hblk nx hnx
      rw [XORKeyStreamLoop_step f1 blk nx oe src false hsrc]
      obtain ⟨f2, rfl⟩ : ∃ k, f2 = k + 1 := ⟨f2 - 1, by omega⟩
      have hd : (xorBytes src (blk nx)).length = min src.length 16 := by
        rw [xorBytes_length, hks]
      by_cases hle : src.length ≤ 16
      · have hdl : (xorBytes src (blk nx)).length = src.length := by omega
        rw [hdl, List.drop_length, XORKeyStreamLoop_nil, List.append_nil,
          XORKeyStreamLoop_step f2 blk nx od _ true (by omega), xorBytes_cancel, hks,
          List.take_of_length_le hle, List.drop_of_length_le (by omega),
          XORKeyStreamLoop_nil, List.append_nil]
      · have hdl : (xorBytes src (blk nx)).length = 16 := by omega
        have hcp : copyAt nx 0 (xorBytes src (blk nx)) = xorBytes src (blk nx) := by
          rw [copyAt_zero_full _ _ (by omega), hnx, ← hdl, List.take_length]
        simp only [Bool.false_eq_true, if_false, hcp, hdl]
        rw [XORKeyStreamLoop_step f2 blk nx od _ true (by simp; omega)]
        have hx : xorBytes (xorBytes src (blk nx) ++
            XORKeyStreamLoop f1 ⟨blk, xorBytes src (blk nx), blk nx, 16, false⟩
              (List.drop 16 src)) (blk nx) = src.take 16 := by
          rw [xorBytes_append_left _ _ _ (by omega), xorBytes_cancel, hks]
        have hcp2 : copyAt nx 0 (xorBytes src (blk nx) ++
            XORKeyStreamLoop f1 ⟨blk, xorBytes src (blk nx), blk nx, 16, false⟩
              (List.drop 16 src)) = xorBytes src (blk nx) := by
          rw [copyAt_zero_full _ _ (by simp; omega), hnx, ← hdl, List.take_left]
        simp only [if_true, hx, hcp2]
        have h16 : (List.take 16 src).length = 16 := by simp; omega
        rw [h16, ← hdl, List.drop_left, hdl]
        have := ih f2 (src.drop 16) (xorBytes src (blk nx)) (blk nx) (blk nx) hdl
          (by simp; omega) (by simp; omega)
        rw [hks] at this
        rw [this, List.take_append_drop]
    · have : src = [] := List.length_eq_zero.mp (by omega)
      subst this
      simp [XORKeyStreamLoop, XORKeyStreamLoop_nil]

/-- The encrypter writes exactly as many bytes as it reads, all of them
bytes. -/
theorem XORKeyStreamLoop_encrypt (blk : List Nat → List Nat)
    (hblk : ∀ b, b.length = 16 → (blk b).length = 16 ∧ ∀ x ∈ blk b, x < 256) :
    ∀ (f : Nat) (src nx out : List Nat), nx.length = 16 → src.length ≤ f →
      (∀ b ∈ src, b < 256) →
      (XORKeyStreamLoop f ⟨blk, nx, out, out.length, false⟩ src).length = src.length ∧
      ∀ b ∈ XORKeyStreamLoop f ⟨blk, nx, out, out.length, false⟩ src, b < 256 := by
  intro f
  induction f with
  | zero =>
    intro src nx out _ h1 _
    have : src = [] := List.length_eq_zero.mp (by omega)
    subst this
    simp [XORKeyStreamLoop]
  | succ f ih =>
    intro src nx out hnx h1 hb
    by_cases hsrc : 0 < src.length
    · have hks : (blk nx).length = 16 := (hblk nx hnx).1
      have hd : (xorBytes src (blk nx)).length = min src.length 16 := by
        rw [xorBytes_length, hks]
      have hdb := xorBytes_lt src (blk nx) hb (hblk nx hnx).2
      rw [XORKeyStreamLoop_step f blk nx out src false hsrc]
      by_cases hle : src.length ≤ 16
      · have hdl : (xorBytes src (blk nx)).length = src.length := by omega
        rw [hdl, List.drop_length, XORKeyStreamLoop_nil, List.append_nil]
        exact ⟨hdl, hdb⟩
      · have hdl : (xorBytes src (blk nx)).length = 16 := by omega
        have hcp : copyAt nx 0 (xorBytes src (blk nx)) = xorBytes src (blk nx) := by
          rw [copyAt_zero_full _ _ (by omega), hnx, ← hdl, List.take_length]
        simp only [Bool.false_eq_true, if_false, hcp, hdl]
        have := ih (src.drop 16) (xorBytes src (blk nx)) (blk nx) hdl (by simp; omega)
          (fun b hm => hb b (List.mem_of_mem_drop hm))
        rw [hks] at this
        constructor
        · rw [List.length_append, this.1, hdl, List.length_drop]; omega
        · intro b hm
          rcases List.mem_append.mp hm with hm | hm
          · exact hdb b hm
          · exact this.2 b hm
    · have : src = [] := List.length_eq_zero.mp (by omega)
      subst this
      simp [XORKeyStreamLoop]

theorem newCFB_next (blk : List Nat → List Nat) (iv : List Nat) (dec : Bool)
    (h : iv.length = 16) : (newCFB blk iv dec).next = iv := by
  simp only [newCFB]
  rw [copyAt_zero_full _ _ (by simp [BlockSize, h])]
  simp [BlockSize, ← h]

theorem newCFB_eq (blk : List Nat → List Nat) (iv : List Nat) (dec : Bool)
    (h : iv.length = 16) :
    newCFB blk iv dec =
      ⟨blk, iv, List.replicate BlockSize 0, (List.replicate BlockSize 0).length, dec⟩ := by
  have := newCFB_next blk iv dec h
  simp only [newCFB] at this ⊢
  simp [this]

/-- CFB decryption inverts CFB encryption under the same block function and
IV. -/
theorem cfb_roundtrip (blk : List Nat → List Nat)
    (hblk : ∀ b, b.length = 16 → (blk b).length = 16 ∧ ∀ x ∈ blk b, x < 256)
    (iv src : List Nat) (hiv : iv.length = 16) (hb : ∀ b ∈ src, b < 256) :
    XORKeyStream (NewCFBDecrypter blk iv) (XORKeyStream (NewCFBEncrypter blk iv) src) = src := by
  simp only [XORKeyStream, NewCFBDecrypter, NewCFBEncrypter, newCFB_eq blk iv _ hiv]
  have hl := (XORKeyStreamLoop_encrypt blk hblk src.length src iv
    (List.replicate BlockSize 0) hiv (le_refl _) hb).1
  rw [hl]
  exact XORKeyStreamLoop_roundtrip blk (fun b h => (hblk b h).1) _ _ src iv _ _ hiv
    (le_refl _) (le_refl _)

theorem cfb_encrypt_length (blk : List Nat → List Nat)
    (hblk : ∀ b, b.length = 16 → (blk b).length = 16 ∧ ∀ x ∈ blk b, x < 256)
    (iv src : List Nat) (hiv : iv.length = 16) (hb : ∀ b ∈ src, b < 256) :
    (XORKeyStream (NewCFBEncrypter blk iv) src).length = src.length ∧
      ∀ b ∈ XORKeyStream (NewCFBEncrypter blk iv) src, b < 256 := by
  simp only [XORKeyStream, NewCFBEncrypter, newCFB_eq blk iv _ hiv]
  exact XORKeyStreamLoop_encrypt blk hblk src.length src iv _ hiv (le_refl _) hb

/-! ### EncryptJSON lemmas -/

theorem toyBlock_blockFunction : BlockFunction toyBlock := by
  intro key block _
  constructor
  · simp [toyBlock, BlockSize]
  · intro b hb
    simp only [toyBlock, List.mem_map] at hb
    obtain ⟨i, _, rfl⟩ := hb
    exact Nat.mod_lt _ (by decide)

theorem DecodeString_EncodeToString (bs : List Nat) (h : Bytes bs) :
    DecodeString (EncodeToString bs) = some bs := by
  simp only [DecodeString, EncodeToString]
  exact base64Decode_encode bs h

/-- The successful path of `EncryptJSON`. -/
theorem EncryptJSON_ok (aes : List Nat → List Nat → List Nat) (rand P : List Nat)
    (hexKey : String) (key : List Nat) (hkey : hexDecodeString hexKey = .ok key)
    (hlen : key.length = 16 ∨ key.length = 24 ∨ key.length = 32)
    (hdraw : 16 ≤ rand.length) :
    EncryptJSON aes rand P hexKey =
      (EncodeToString (rand.take 16 ++
        XORKeyStream (NewCFBEncrypter (aes key) (rand.take 16)) P), none) := by
  have h1 : ¬ (key.length ≠ 16 ∧ key.length ≠ 24 ∧ key.length ≠ 32) := by omega
  simp only [EncryptJSON, hkey, h1, if_false, NewCipher, hlen, if_true, ReadFull, BlockSize,
    hdraw]

/-- A run of `EncryptJSON` that returns no error went through the successful
path. -/
theorem EncryptJSON_success (aes : List Nat → List Nat → List Nat) (rand P : List Nat)
    (hexKey : String) (h : (EncryptJSON aes rand P hexKey).2 = none) :
    ∃ key, hexDecodeString hexKey = .ok key ∧
      (key.length = 16 ∨ key.length = 24 ∨ key.length = 32) ∧ 16 ≤ rand.length := by
  unfold EncryptJSON at h
  cases hk : hexDecodeString hexKey with
  | error e => simp [hk] at h
  | ok key =>
    refine ⟨key, rfl, ?_⟩
    simp only [hk] at h
    by_cases hl : key.length ≠ 16 ∧ key.length ≠ 24 ∧ key.length ≠ 32
    · simp [hl] at h
    · have hl2 : key.length = 16 ∨ key.length = 24 ∨ key.length = 32 := by omega
      refine ⟨hl2, ?_⟩
      by_contra hr
      simp [hl, NewCipher, hl2, ReadFull, BlockSize, hr] at h

theorem envelope_bytes (aes : List Nat → List Nat → List Nat) (haes : BlockFunction aes)
    (key rand P : List Nat) (hP : Bytes P) (hrand : Bytes rand) (hdraw : 16 ≤ rand.length) :
    Bytes (rand.take 16 ++ XORKeyStream (NewCFBEncrypter (aes key) (rand.take 16)) P) := by
  intro b hb
  rcases List.mem_append.mp hb with hb | hb
  · exact hrand b (List.mem_of_mem_take hb)
  · exact (cfb_encrypt_length (aes key) (haes key) (rand.take 16) P
      (by simp; omega) hP).2 b hb

/-! ### hex.DecodeString lemmas -/

theorem fromHexChar_eq_none (c : Char) :
    fromHexChar c = none ↔
      ¬ (('0' ≤ c ∧ c ≤ '9') ∨ ('a' ≤ c ∧ c ≤ 'f') ∨ ('A' ≤ c ∧ c ≤ 'F')) := by
  unfold fromHexChar
  split_ifs <;> simp_all

theorem hexDecode_error : ∀ (l : List Char),
    ((∃ c ∈ l, fromHexChar c = none) ∨ l.length % 2 = 1) → ∃ e, hexDecode l = .error e
  | [], h => by simp at h
  | [p], _ => by
    unfold hexDecode
    cases fromHexChar p <;> simp
  | p :: q :: rest, h => by
    unfold hexDecode
    cases hp : fromHexChar p with
    | none => simp
    | some a =>
      cases hq : fromHexChar q with
      | none => simp
      | some b =>
        have hrest : (∃ c ∈ rest, fromHexChar c = none) ∨ rest.length % 2 = 1 := by
          rcases h with ⟨c, hc, hn⟩ | h
          · simp only [List.mem_cons] at hc
            rcases hc with rfl | rfl | hc
            · rw [hp] at hn; cases hn
            · rw [hq] at hn; cases hn
            · exact Or.inl ⟨c, hc, hn⟩
          · right
            simp only [List.length_cons] at h
            omega
        obtain ⟨e, he⟩ := hexDecode_error rest hrest
        simp [he]

theorem hexDecode_length : ∀ (l : List Char) (key : List Nat),
    hexDecode l = .ok key → l.length = 2 * key.length
  | [], key, h => by
    simp only [hexDecode, Except.ok.injEq] at h
    subst h; rfl
  | [p], key, h => by
    unfold hexDecode at h
    cases hp : fromHexChar p <;> simp [hp] at h
  | p :: q :: rest, key, h => by
    unfold hexDecode at h
    cases hp : fromHexChar p with
    | none => simp [hp] at h
    | some a =>
      cases hq : fromHexChar q with
      | none => simp [hp, hq] at h
      | some b =>
        cases hr : hexDecode rest with
        | error e => simp [hp, hq, hr] at h
        | ok bs =>
          simp only [hp, hq, hr, Except.ok.injEq] at h
          subst h
          have := hexDecode_length rest bs hr
          simp only [List.length_cons, this]
          omega

/-! ### Claims on EncryptJSON -/

/-- C1 (round trip): for every plaintext `P`, every hex key decoding to 16, 24
or 32 bytes and every draw of at least 16 random bytes, `EncryptJSON` returns
no error, its string decodes from URL-safe base64, the first 16 decoded bytes
are the IV drawn, and CFB decryption of the remaining bytes under the same
key and that IV is exactly `P`. -/
theorem EncryptJSON_roundtrip (aes : List Nat → List Nat → List Nat) (rand P : List Nat)
    (hexKey : String) (key : List Nat) (haes : BlockFunction aes) (hP : Bytes P)
    (hrand : Bytes rand) (hdraw : 16 ≤ rand.length)
    (hkey : hexDecodeString hexKey = .ok key)
    (hlen : key.length = 16 ∨ key.length = 24 ∨ key.length = 32) :
    ∃ decoded, (EncryptJSON aes rand P hexKey).2 = none ∧
      DecodeString (EncryptJSON aes rand P hexKey).1 = some decoded ∧
      decoded.take 16 = rand.take 16 ∧
      XORKeyStream (NewCFBDecrypter (aes key) (decoded.take 16)) (decoded.drop 16) = P := by
  have hiv : (rand.take 16).length = 16 := by simp; omega
  refine ⟨rand.take 16 ++ XORKeyStream (NewCFBEncrypter (aes key) (rand.take 16)) P, ?_, ?_,
    ?_, ?_⟩
  · rw [EncryptJSON_ok aes rand P hexKey key hkey hlen hdraw]
  · rw [EncryptJSON_ok aes rand P hexKey key hkey hlen hdraw]
    exact DecodeString_EncodeToString _ (envelope_bytes aes haes key rand P hP hrand hdraw)
  · nth_rewrite 1 [← hiv]
    rw [List.take_left]
  · have h1 : List.take 16 (rand.take 16 ++
        XORKeyStream (NewCFBEncrypter (aes key) (rand.take 16)) P) = rand.take 16 := by
      nth_rewrite 1 [← hiv]
      rw [List.take_left]
    have h2 : List.drop 16 (rand.take 16 ++
        XORKeyStream (NewCFBEncrypter (aes key) (rand.take 16)) P) =
        XORKeyStream (NewCFBEncrypter (aes key) (rand.take 16)) P := by
      nth_rewrite 1 [← hiv]
      rw [List.drop_left]
    rw [h1, h2]
    exact cfb_roundtrip (aes key) (haes key) (rand.take 16) P hiv hP

theorem EncryptJSON_roundtrip_witness :
    ∃ decoded,
      (EncryptJSON toyBlock (List.range 20) [1, 2, 3] "000102030405060708090a0b0c0d0e0f").2
        = none ∧
      DecodeString
        (EncryptJSON toyBlock (List.range 20) [1, 2, 3] "000102030405060708090a0b0c0d0e0f").1
        = some decoded ∧
      decoded.take 16 = (List.range 20).take 16 ∧
      XORKeyStream (NewCFBDecrypter (toyBlock (List.range 16)) (decoded.take 16))
        (decoded.drop 16) = [1, 2, 3] :=
  EncryptJSON_roundtrip toyBlock (List.range 20) [1, 2, 3] "000102030405060708090a0b0c0d0e0f"
    (List.range 16) toyBlock_blockFunction (by decide) (by decide) (by decide) (by decide)
    (by decide)

/-- C2 (ciphertext length): whenever `EncryptJSON` returns no error, for any
plaintext `P`, the empty one included, the URL-safe base64 decoding of the
returned string has length exactly `16 + len(P)`. -/
theorem EncryptJSON_decoded_length (aes : List Nat → List Nat → List Nat)
    (rand P : List Nat) (hexKey : String) (haes : BlockFunction aes) (hP : Bytes P)
    (hrand : Bytes rand) (hok : (EncryptJSON aes rand P hexKey).2 = none) :
    ∃ decoded, DecodeString (EncryptJSON aes rand P hexKey).1 = some decoded ∧
      decoded.length = 16 + P.length := by
  obtain ⟨key, hkey, hlen, hdraw⟩ := EncryptJSON_success aes rand P hexKey hok
  refine ⟨rand.take 16 ++ XORKeyStream (NewCFBEncrypter (aes key) (rand.take 16)) P, ?_, ?_⟩
  · rw [EncryptJSON_ok aes rand P hexKey key hkey hlen hdraw]
    exact DecodeString_EncodeToString _ (envelope_bytes aes haes key rand P hP hrand hdraw)
  · rw [List.length_append, (cfb_encrypt_length (aes key) (haes key) (rand.take 16) P
      (by simp; omega) hP).1]
    simp; omega

theorem EncryptJSON_decoded_length_witness :
    ∃ decoded,
      DecodeString
        (EncryptJSON toyBlock (List.range 16) [] "000102030405060708090a0b0c0d0e0f").1
        = some decoded ∧
      decoded.length = 16 + ([] : List Nat).length :=
  EncryptJSON_decoded_length toyBlock (List.range 16) [] "000102030405060708090a0b0c0d0e0f"
    toyBlock_blockFunction (by decide) (by decide) (by decide)

/-- C3 (key-length rejection): for a key string that is valid hexadecimal and
decodes to `n` bytes (so it has `2 * n` characters), `EncryptJSON` fails with
the key-length error if and only if `n` is not 16, 24 or 32; on that failure
the returned string is empty and the error reports `n` itself; and when `n` is
16, 24 or 32 the cipher is keyed with exactly the decoded bytes. -/
theorem EncryptJSON_key_length (aes : List Nat → List Nat → List Nat) (rand P : List Nat)
    (hexKey : String) (key : List Nat) (hkey : hexDecodeString hexKey = .ok key) :
    hexKey.length = 2 * key.length ∧
    ((∃ n, (EncryptJSON aes rand P hexKey).2 = some (.keyLength n)) ↔
      ¬ (key.length = 16 ∨ key.length = 24 ∨ key.length = 32)) ∧
    (¬ (key.length = 16 ∨ key.length = 24 ∨ key.length = 32) →
      EncryptJSON aes rand P hexKey = ("", some (.keyLength key.length))) ∧
    ((key.length = 16 ∨ key.length = 24 ∨ key.length = 32) → 16 ≤ rand.length →
      EncryptJSON aes rand P hexKey =
        (EncodeToString (rand.take 16 ++
          XORKeyStream (NewCFBEncrypter (aes key) (rand.take 16)) P), none)) := by
  have hbad : ¬ (key.length = 16 ∨ key.length = 24 ∨ key.length = 32) →
      EncryptJSON aes rand P hexKey = ("", some (.keyLength key.length)) := by
    intro hn
    have h1 : key.length ≠ 16 ∧ key.length ≠ 24 ∧ key.length ≠ 32 := by omega
    simp only [EncryptJSON, hkey]
    rw [if_pos h1]
  refine ⟨hexDecode_length hexKey.toList key hkey, ⟨?_, ?_⟩, hbad, ?_⟩
  · rintro ⟨n, hn⟩ hl
    have h1 : ¬ (key.length ≠ 16 ∧ key.length ≠ 24 ∧ key.length ≠ 32) := by omega
    simp only [EncryptJSON, hkey, h1, if_false, NewCipher, hl, if_true] at hn
    cases hr : ReadFull rand BlockSize <;> simp [hr] at hn
  · intro hn
    exact ⟨key.length, by rw [hbad hn]⟩
  · intro hl hdraw
    exact EncryptJSON_ok aes rand P hexKey key hkey hl hdraw

theorem EncryptJSON_key_length_witness :
    EncryptJSON toyBlock (List.range 16) [1, 2, 3] "00010203040506070809" =
      ("", some (.keyLength 10)) :=
  (EncryptJSON_key_length toyBlock (List.range 16) [1, 2, 3] "00010203040506070809"
    (List.range 10) (by decide)).2.2.1 (by decide)

/-- C4 (key-format rejection): for every key string that contains a character
outside `0-9`, `a-f`, `A-F`, or has an odd number of characters, `EncryptJSON`
returns the empty string together with the key-decoding error, which is not
the key-length error. -/
theorem EncryptJSON_key_format (aes : List Nat → List Nat → List Nat) (rand P : List Nat)
    (hexKey : String)
    (hbad : (∃ c ∈ hexKey.toList,
        ¬ (('0' ≤ c ∧ c ≤ '9') ∨ ('a' ≤ c ∧ c ≤ 'f') ∨ ('A' ≤ c ∧ c ≤ 'F'))) ∨
      hexKey.length % 2 = 1) :
    ∃ e, EncryptJSON aes rand P hexKey = ("", some (.decodeKey e)) ∧
      ∀ n, (EncryptJSON aes rand P hexKey).2 ≠ some (.keyLength n) := by
  have h : (∃ c ∈ hexKey.toList, fromHexChar c = none) ∨ hexKey.toList.length % 2 = 1 := by
    rcases hbad with ⟨c, hc, hn⟩ | h
    · exact Or.inl ⟨c, hc, (fromHexChar_eq_none c).mpr hn⟩
    · exact Or.inr h
  obtain ⟨e, he⟩ := hexDecode_error hexKey.toList h
  have hres : EncryptJSON aes rand P hexKey = ("", some (.decodeKey e)) := by
    simp only [EncryptJSON, hexDecodeString, he]
  refine ⟨e, hres, ?_⟩
  intro n
  rw [hres]
  simp

theorem EncryptJSON_key_format_witness :
    ∃ e, EncryptJSON toyBlock (List.range 16) [1, 2, 3] "0g" = ("", some (.decodeKey e)) ∧
      ∀ n, (EncryptJSON toyBlock (List.range 16) [1, 2, 3] "0g").2 ≠ some (.keyLength n) :=
  EncryptJSON_key_format toyBlock (List.range 16) [1, 2, 3] "0g"
    (Or.inl ⟨'g', by decide, by decide⟩)

/-- C5 (the IV is the random draw): for valid keys, the first 16 bytes of the
decoded output of `EncryptJSON` are exactly the 16 bytes read from the random
source in that call, whatever the plaintext and the key; so two calls have the
same IV exactly when their draws are the same. -/
theorem EncryptJSON_iv_is_draw (aes : List Nat → List Nat → List Nat)
    (rand rand' P P' : List Nat) (hexKey hexKey' : String) (key key' : List Nat)
    (haes : BlockFunction aes) (hP : Bytes P) (hP' : Bytes P')
    (hrand : Bytes rand) (hrand' : Bytes rand')
    (hdraw : 16 ≤ rand.length) (hdraw' : 16 ≤ rand'.length)
    (hkey : hexDecodeString hexKey = .ok key)
    (hlen : key.length = 16 ∨ key.length = 24 ∨ key.length = 32)
    (hkey' : hexDecodeString hexKey' = .ok key')
    (hlen' : key'.length = 16 ∨ key'.length = 24 ∨ key'.length = 32) :
    ∃ d d', DecodeString (EncryptJSON aes rand P hexKey).1 = some d ∧
      DecodeString (EncryptJSON aes rand' P' hexKey').1 = some d' ∧
      ReadFull rand BlockSize = some (d.take 16) ∧
      ReadFull rand' BlockSize = some (d'.take 16) ∧
      (d.take 16 = d'.take 16 ↔ rand.take 16 = rand'.take 16) := by
  have hiv : (rand.take 16).length = 16 := by simp; omega
  have hiv' : (rand'.take 16).length = 16 := by simp; omega
  have h1 : List.take 16 (rand.take 16 ++
      XORKeyStream (NewCFBEncrypter (aes key) (rand.take 16)) P) = rand.take 16 := by
    nth_rewrite 1 [← hiv]
    rw [List.take_left]
  have h1' : List.take 16 (rand'.take 16 ++
      XORKeyStream (NewCFBEncrypter (aes key') (rand'.take 16)) P') = rand'.take 16 := by
    nth_rewrite 1 [← hiv']
    rw [List.take_left]
  refine ⟨rand.take 16 ++ XORKeyStream (NewCFBEncrypter (aes key) (rand.take 16)) P,
    rand'.take 16 ++ XORKeyStream (NewCFBEncrypter (aes key') (rand'.take 16)) P',
    ?_, ?_, ?_, ?_, ?_⟩
  · rw [EncryptJSON_ok aes rand P hexKey key hkey hlen hdraw]
    exact DecodeString_EncodeToString _ (envelope_bytes aes haes key rand P hP hrand hdraw)
  · rw [EncryptJSON_ok aes rand' P' hexKey' key' hkey' hlen' hdraw']
    exact DecodeString_EncodeToString _
      (envelope_bytes aes haes key' rand' P' hP' hrand' hdraw')
  · rw [h1]; simp [ReadFull, BlockSize, hdraw]
  · rw [h1']; simp [ReadFull, BlockSize, hdraw']
  · rw [h1, h1']

theorem EncryptJSON_iv_is_draw_witness :
    ∃ d d',
      DecodeString
        (EncryptJSON toyBlock (List.range 16) [1, 2, 3] "000102030405060708090a0b0c0d0e0f").1
        = some d ∧
      DecodeString
        (EncryptJSON toyBlock (List.range 20) [9] "0f0e0d0c0b0a09080706050403020100").1
        = some d' ∧
      ReadFull (List.range 16) BlockSize = some (d.take 16) ∧
      ReadFull (List.range 20) BlockSize = some (d'.take 16) ∧
      (d.take 16 = d'.take 16 ↔ (List.range 16).take 16 = (List.range 20).take 16) :=
  EncryptJSON_iv_is_draw toyBlock (List.range 16) (List.range 20) [1, 2, 3] [9]
    "000102030405060708090a0b0c0d0e0f" "0f0e0d0c0b0a09080706050403020100"
    (List.range 16) ((List.range 16).reverse) toyBlock_blockFunction
    (by decide) (by decide) (by decide) (by decide) (by decide) (by decide)
    (by decide) (by decide) (by decide) (by decide)

/-! ### Lemmas on main -/

section
variable {S N P : Type}

theorem collectSystemInfo_events (w : World S N P) :
    ∀ e ∈ (collectSystemInfo w).1, ∃ d, e = Event.probe d := by
  unfold collectSystemInfo
  cases hardware.Collect w.hw <;> cases w.software <;> cases w.network <;>
    cases w.performance <;> simp

theorem collectSystemInfo_ok_events (w : World S N P) (info : SystemInfo S N P)
    (h : (collectSystemInfo w).2 = .ok info) :
    (collectSystemInfo w).1 =
      [.probe .hardware, .probe .software, .probe .network, .probe .performance] := by
  revert h
  unfold collectSystemInfo
  cases hardware.Collect w.hw <;> cases w.software <;> cases w.network <;>
    cases w.performance <;> simp

theorem sendDataToServer_events (post : String → String → String → Except Error Response)
    (serverAddress encryptedData : String) :
    (sendDataToServer post serverAddress encryptedData).1 =
      [.post serverAddress "text/plain" encryptedData] := by
  unfold sendDataToServer
  cases post serverAddress "text/plain" encryptedData with
  | error e => rfl
  | ok resp => by_cases h : resp.StatusCode ≠ StatusOK <;> simp [h]

/-- A request in the trace of `main` comes from the last step of a run in
which every earlier step succeeded. -/
theorem main_post_inv (w : World S N P) (url ct body : String)
    (h : Event.post url ct body ∈ main w) :
    ∃ config encryptionKey info jsonData,
      ReadINIFile w.configFile = some config ∧
      config.get "server_address" = some url ∧
      config.get "encryption_key" = some encryptionKey ∧
      (collectSystemInfo w).2 = .ok info ∧
      w.marshal info = some jsonData ∧
      EncryptJSON w.aes w.rand jsonData encryptionKey = (body, none) ∧
      ct = "text/plain" := by
  unfold main at h
  cases hc : ReadINIFile w.configFile with
  | none => simp [hc] at h
  | some config =>
    cases hs : config.get "server_address" with
    | none => simp [hc, hs] at h
    | some serverAddress =>
      cases hk : config.get "encryption_key" with
      | none => simp [hc, hs, hk] at h
      | some encryptionKey =>
        have hev := collectSystemInfo_events w
        rcases hcol : collectSystemInfo w with ⟨probes, r⟩
        rw [hcol] at hev
        have hnp : Event.post url ct body ∉ probes := by
          intro hm
          obtain ⟨d, hd⟩ := hev _ hm
          cases hd
        cases r with
        | error e => simp [hc, hs, hk, hcol, hnp] at h
        | ok info =>
          cases hm : w.marshal info with
          | none => simp [hc, hs, hk, hcol, hm, hnp] at h
          | some jsonData =>
            rcases he : EncryptJSON w.aes w.rand jsonData encryptionKey with ⟨enc, err⟩
            cases err with
            | some err => simp [hc, hs, hk, hcol, hm, he, hnp] at h
            | none =>
              have hsend := sendDataToServer_events w.post serverAddress enc
              rcases hsd : sendDataToServer w.post serverAddress enc with ⟨sent, serr⟩
              rw [hsd] at hsend
              simp only at hsend
              subst hsend
              have : url = serverAddress ∧ ct = "text/plain" ∧ body = enc := by
                cases serr <;> simpa [hc, hs, hk, hcol, hm, he, hsd, hnp] using h
              obtain ⟨rfl, rfl, rfl⟩ := this
              exact ⟨config, encryptionKey, info, jsonData, rfl, hs, hk, rfl, hm, he, rfl⟩

/-- A key that is not valid hexadecimal of 16, 24 or 32 bytes makes
`EncryptJSON` fail, whatever the data. -/
theorem EncryptJSON_malformed_key (aes : List Nat → List Nat → List Nat) (rand P : List Nat)
    (hexKey : String)
    (hbad : ¬ ∃ k, hexDecodeString hexKey = .ok k ∧
      (k.length = 16 ∨ k.length = 24 ∨ k.length = 32)) :
    ∃ err, EncryptJSON aes rand P hexKey = ("", some err) := by
  cases hk : hexDecodeString hexKey with
  | error e => exact ⟨.decodeKey e, by simp only [EncryptJSON, hk]⟩
  | ok k =>
    have hl : k.length ≠ 16 ∧ k.length ≠ 24 ∧ k.length ≠ 32 := by
      refine ⟨fun h => hbad ⟨k, hk, ?_⟩, fun h => hbad ⟨k, hk, ?_⟩, fun h => hbad ⟨k, hk, ?_⟩⟩ <;>
        omega
    refine ⟨.keyLength k.length, ?_⟩
    simp only [EncryptJSON, hk]
    rw [if_pos hl]

/-- C6 (no unencrypted fallback): in every run of `main`, a request is only
made with a body that a successful `EncryptJSON` returned for the serialized
snapshot under the configured key; and when `EncryptJSON` returns an error for
the run's snapshot, no request is made at all. -/
theorem main_no_unencrypted_fallback (w : World S N P) :
    (∀ url ct body, Event.post url ct body ∈ main w →
      ∃ config encryptionKey info jsonData,
        ReadINIFile w.configFile = some config ∧
        config.get "encryption_key" = some encryptionKey ∧
        (collectSystemInfo w).2 = .ok info ∧
        w.marshal info = some jsonData ∧
        EncryptJSON w.aes w.rand jsonData encryptionKey = (body, none)) ∧
    (∀ config encryptionKey info jsonData err,
      ReadINIFile w.configFile = some config →
      config.get "encryption_key" = some encryptionKey →
      (collectSystemInfo w).2 = .ok info →
      w.marshal info = some jsonData →
      (EncryptJSON w.aes w.rand jsonData encryptionKey).2 = some err →
      ∀ url ct body, Event.post url ct body ∉ main w) := by
  constructor
  · intro url ct body h
    obtain ⟨config, key, info, json, h1, _, h3, h4, h5, h6, _⟩ := main_post_inv w url ct body h
    exact ⟨config, key, info, json, h1, h3, h4, h5, h6⟩
  · intro config key info json err h1 h2 h3 h4 h5 url ct body h
    obtain ⟨config', key', info', json', h1', _, h3', h4', h5', h6', _⟩ :=
      main_post_inv w url ct body h
    rw [h1] at h1'
    cases h1'
    rw [h2] at h3'
    cases h3'
    rw [h3] at h4'
    cases h4'
    rw [h4] at h5'
    cases h5'
    rw [h6'] at h5
    cases h5

theorem main_no_unencrypted_fallback_witness :
    ∃ config encryptionKey info jsonData,
      ReadINIFile (sampleWorld goodConfig sampleQueries 200).configFile = some config ∧
      config.get "encryption_key" = some encryptionKey ∧
      (collectSystemInfo (sampleWorld goodConfig sampleQueries 200)).2 = .ok info ∧
      (sampleWorld goodConfig sampleQueries 200).marshal info = some jsonData ∧
      EncryptJSON (sampleWorld goodConfig sampleQueries 200).aes
        (sampleWorld goodConfig sampleQueries 200).rand jsonData encryptionKey =
        ("AAECAwQFBgcICQoLDA0OD3t-", none) :=
  (main_no_unencrypted_fallback (sampleWorld goodConfig sampleQueries 200)).1
    "http://h/p?a=b" "text/plain" "AAECAwQFBgcICQoLDA0OD3t-" (by decide)

/-- C7 as stated fails: with both keys present and an `encryption_key` that is
not hexadecimal, all four collectors are called before the run ends with the
fatal encryption error. -/
theorem main_config_error_counterexample :
    ReadINIFile (sampleWorld badKeyConfig sampleQueries 200).configFile =
      some [("encryption_key", "zz"), ("server_address", "http://h")] ∧
    hexDecodeString "zz" = .error (.invalidByte 'z') ∧
    main (sampleWorld badKeyConfig sampleQueries 200) =
      [.probe .hardware, .probe .software, .probe .network, .probe .performance,
       .fatal (.encrypt (.decodeKey (.invalidByte 'z')))] := by
  decide

/-- C7 amended: when `server_address` or `encryption_key` is absent from the
configuration, the run is a single fatal error and no collector is called;
when both are present and `encryption_key` is not valid hexadecimal of 16, 24
or 32 bytes, nothing is ever sent, and a run whose snapshot is collected and
serialized calls the four collectors and then ends with the fatal encryption
error. -/
theorem main_config_errors (w : World S N P) :
    (∀ config, ReadINIFile w.configFile = some config →
      (config.get "server_address" = none ∨ config.get "encryption_key" = none) →
      main w = [.fatal .noServerAddress] ∨ main w = [.fatal .noEncryptionKey]) ∧
    (∀ config serverAddress encryptionKey,
      ReadINIFile w.configFile = some config →
      config.get "server_address" = some serverAddress →
      config.get "encryption_key" = some encryptionKey →
      (¬ ∃ k, hexDecodeString encryptionKey = .ok k ∧
        (k.length = 16 ∨ k.length = 24 ∨ k.length = 32)) →
      (∀ url ct body, Event.post url ct body ∉ main w) ∧
      (∀ info jsonData, (collectSystemInfo w).2 = .ok info →
        w.marshal info = some jsonData →
        ∃ err, main w =
          [.probe .hardware, .probe .software, .probe .network, .probe .performance,
           .fatal (.encrypt err)])) := by
  constructor
  · intro config hc hmiss
    unfold main
    cases hs : config.get "server_address" with
    | none => left; simp [hc, hs]
    | some serverAddress =>
      have hk : config.get "encryption_key" = none := by
        rcases hmiss with h | h
        · rw [hs] at h; cases h
        · exact h
      right; simp [hc, hs, hk]
  · intro config serverAddress encryptionKey hc hs hk hbad
    constructor
    · intro url ct body h
      obtain ⟨config', key', info, json, h1, _, h3, _, _, h6, _⟩ := main_post_inv w url ct body h
      rw [hc] at h1
      cases h1
      rw [hk] at h3
      cases h3
      obtain ⟨err, he⟩ := EncryptJSON_malformed_key w.aes w.rand json encryptionKey hbad
      rw [he] at h6
      cases h6
    · intro info json hcol hm
      obtain ⟨err, he⟩ := EncryptJSON_malformed_key w.aes w.rand json encryptionKey hbad
      have hev := collectSystemInfo_ok_events w info hcol
      refine ⟨err, ?_⟩
      unfold main
      rcases hcs : collectSystemInfo w with ⟨probes, r⟩
      rw [hcs] at hev hcol
      simp only at hev hcol
      subst hev hcol
      simp [hc, hs, hk, hm, he]

theorem main_config_errors_witness :
    main (sampleWorld noKeyConfig sampleQueries 200) = [.fatal .noServerAddress] ∨
    main (sampleWorld noKeyConfig sampleQueries 200) = [.fatal .noEncryptionKey] :=
  (main_config_errors (sampleWorld noKeyConfig sampleQueries 200)).1
    [("server_address", "http://h")] (by decide) (Or.inr (by decide))

/-! ### Claims on the hardware collector and on delivery -/

theorem getCPUInfo_error_zero (q : hardware.Queries) (cpu : hardware.CPUInfo) (err : Error)
    (h : hardware.getCPUInfo q = .ok (cpu, some err)) : cpu = hardware.CPUInfo.zero := by
  unfold hardware.getCPUInfo at h
  cases hq : q.cpuInfo with
  | error e =>
    simp only [hq, Except.ok.injEq, Prod.mk.injEq] at h
    exact h.1.symm
  | ok cpuInfo =>
    simp only [hq] at h
    by_cases hl : cpuInfo.length = 0
    · simp only [hl, if_true, Except.ok.injEq, Prod.mk.injEq] at h
      exact h.1.symm
    · simp only [hl, if_false, bind, Except.bind, pure, Except.pure] at h
      cases hc : hardware.index cpuInfo 0 with
      | error e => simp [hc] at h
      | ok c0 =>
        cases hp : hardware.index q.cpuPercent.1 0 with
        | error e => simp [hc, hp] at h
        | ok p0 => simp [hc, hp] at h

theorem getGPUInfo_error_zero (q : hardware.Queries) (gpu : List hardware.GPUInfo)
    (err : Error) (h : hardware.getGPUInfo q = .ok (gpu, some err)) : gpu = [] := by
  unfold hardware.getGPUInfo at h
  cases hq : q.gpu with
  | error e =>
    simp only [hq, Except.ok.injEq, Prod.mk.injEq] at h
    exact h.1.symm
  | ok cards =>
    simp only [hq, bind, Except.bind, pure, Except.pure] at h
    cases hg : hardware.gpuLoop [] cards with
    | error e => simp [hg] at h
    | ok gpus => simp [hg] at h

/-- C8 (aggregator resilience): whatever the sub-probes of `hardware.Collect`
return, the record holds in every field the value its own sub-probe returned,
and that value is the zero value of the field's type when the sub-probe
returned an error; an error of one sub-probe changes no other field.  The
snapshot carries this record next to the software, network and performance
records as their collectors returned them, and the hardware record is the
zero record when every hardware sub-probe returned an error. -/
theorem Collect_resilient (w : World S N P) (cpu : hardware.CPUInfo)
    (gpu : List hardware.GPUInfo) (ecpu egpu : Option Error) (sw : S) (net : N) (perf : P)
    (hcpu : hardware.getCPUInfo w.hw = .ok (cpu, ecpu))
    (hgpu : hardware.getGPUInfo w.hw = .ok (gpu, egpu))
    (hsw : w.software = .ok sw) (hnet : w.network = .ok net)
    (hperf : w.performance = .ok perf) :
    hardware.Collect w.hw = .ok
      { CPU := cpu
        Memory := (hardware.getMemoryInfo w.hw).1
        Disk := (hardware.getDiskInfo w.hw).1
        GPU := gpu
        Motherboard := (hardware.getMotherboardInfo w.hw).1
        BIOS := (hardware.getBIOSInfo w.hw).1
        USB := (hardware.getUSBInfo w.hw).1 } ∧
    (ecpu ≠ none → cpu = hardware.CPUInfo.zero) ∧
    ((hardware.getMemoryInfo w.hw).2 ≠ none →
      (hardware.getMemoryInfo w.hw).1 = hardware.MemoryInfo.zero) ∧
    ((hardware.getDiskInfo w.hw).2 ≠ none → (hardware.getDiskInfo w.hw).1 = []) ∧
    (egpu ≠ none → gpu = []) ∧
    ((hardware.getMotherboardInfo w.hw).2 ≠ none →
      (hardware.getMotherboardInfo w.hw).1 = hardware.Motherboard.zero) ∧
    ((hardware.getBIOSInfo w.hw).2 ≠ none →
      (hardware.getBIOSInfo w.hw).1 = hardware.BIOSInfo.zero) ∧
    ((hardware.getUSBInfo w.hw).2 ≠ none → (hardware.getUSBInfo w.hw).1 = []) ∧
    (∃ hw, hardware.Collect w.hw = .ok hw ∧
      (collectSystemInfo w).2 = .ok
        { Timestamp := w.now, Hardware := hw, Software := sw, Network := net,
          Performance := perf } ∧
      (ecpu ≠ none → (hardware.getMemoryInfo w.hw).2 ≠ none →
        (hardware.getDiskInfo w.hw).2 ≠ none → egpu ≠ none →
        (hardware.getMotherboardInfo w.hw).2 ≠ none →
        (hardware.getBIOSInfo w.hw).2 ≠ none → (hardware.getUSBInfo w.hw).2 ≠ none →
        hw = hardware.Info.zero)) := by
  have hcol : hardware.Collect w.hw = .ok
      { CPU := cpu
        Memory := (hardware.getMemoryInfo w.hw).1
        Disk := (hardware.getDiskInfo w.hw).1
        GPU := gpu
        Motherboard := (hardware.getMotherboardInfo w.hw).1
        BIOS := (hardware.getBIOSInfo w.hw).1
        USB := (hardware.getUSBInfo w.hw).1 } := by
    simp only [hardware.Collect, hcpu, hgpu, bind, Except.bind, pure, Except.pure]
  have zcpu : ecpu ≠ none → cpu = hardware.CPUInfo.zero := by
    intro h
    obtain ⟨e, rfl⟩ := Option.ne_none_iff_exists'.mp h
    exact getCPUInfo_error_zero w.hw cpu e hcpu
  have zmem : (hardware.getMemoryInfo w.hw).2 ≠ none →
      (hardware.getMemoryInfo w.hw).1 = hardware.MemoryInfo.zero := by
    unfold hardware.getMemoryInfo
    cases w.hw.virtualMemory <;> simp
  have zdisk : (hardware.getDiskInfo w.hw).2 ≠ none → (hardware.getDiskInfo w.hw).1 = [] := by
    unfold hardware.getDiskInfo
    cases w.hw.partitions <;> simp
  have zgpu : egpu ≠ none → gpu = [] := by
    intro h
    obtain ⟨e, rfl⟩ := Option.ne_none_iff_exists'.mp h
    exact getGPUInfo_error_zero w.hw gpu e hgpu
  have zmb : (hardware.getMotherboardInfo w.hw).2 ≠ none →
      (hardware.getMotherboardInfo w.hw).1 = hardware.Motherboard.zero := by
    unfold hardware.getMotherboardInfo
    cases w.hw.product <;> simp
  have zbios : (hardware.getBIOSInfo w.hw).2 ≠ none →
      (hardware.getBIOSInfo w.hw).1 = hardware.BIOSInfo.zero := by
    unfold hardware.getBIOSInfo
    cases w.hw.bios <;> simp
  have zusb : (hardware.getUSBInfo w.hw).2 ≠ none → (hardware.getUSBInfo w.hw).1 = [] := by
    unfold hardware.getUSBInfo
    cases w.hw.block <;> simp
  refine ⟨hcol, zcpu, zmem, zdisk, zgpu, zmb, zbios, zusb, _, hcol, ?_, ?_⟩
  · simp only [collectSystemInfo, hcol, hsw, hnet, hperf]
  · intro h1 h2 h3 h4 h5 h6 h7
    rw [zcpu h1, zmem h2, zdisk h3, zgpu h4, zmb h5, zbios h6, zusb h7]
    rfl

theorem Collect_resilient_witness :
    hardware.Collect (sampleWorld goodConfig failingQueries 200).hw = .ok hardware.Info.zero ∧
    (collectSystemInfo (sampleWorld goodConfig failingQueries 200)).2 = .ok
      { Timestamp := 0, Hardware := hardware.Info.zero, Software := 1, Network := 2,
        Performance := 3 } := by
  obtain ⟨_, _, _, _, _, _, _, _, hw, h1, h2, h3⟩ :=
    Collect_resilient (sampleWorld goodConfig failingQueries 200) hardware.CPUInfo.zero []
      (some "no cpu") (some "no gpu") 1 2 3 (by decide) (by decide) (by decide) (by decide)
      (by decide)
  have hz := h3 (by decide) (by decide) (by decide) (by decide) (by decide) (by decide)
    (by decide)
  subst hz
  exact ⟨h1, h2⟩

/-- C9 fails on the code: when `cpu.Info` answers and `cpu.Percent` returns an
error with no sample, `getCPUInfo` indexes the empty slice, so neither it nor
`hardware.Collect` returns, and the run dies in the hardware collector. -/
theorem getCPUInfo_empty_percent_panics :
    hardware.getCPUInfo emptyPercentQueries = .error (.indexOutOfRange 0 0) ∧
    hardware.Collect emptyPercentQueries = .error (.indexOutOfRange 0 0) ∧
    main (sampleWorld goodConfig emptyPercentQueries 200) =
      [.probe .hardware, .panic (.indexOutOfRange 0 0)] := by
  decide

/-- Whenever `cpu.Info` answers with at least one entry and `cpu.Percent`
returns no sample, `getCPUInfo` panics on `percent[0]`. -/
theorem getCPUInfo_no_sample (q : hardware.Queries) (c : hardware.InfoStat)
    (cs : List hardware.InfoStat) (err : Option Error) (hinfo : q.cpuInfo = .ok (c :: cs))
    (hpercent : q.cpuPercent = ([], err)) :
    hardware.getCPUInfo q = .error (.indexOutOfRange 0 0) := by
  simp [hardware.getCPUInfo, hinfo, hpercent, hardware.index, bind, Except.bind]

/-- The statuses 201, 204 and 500 are failures, 200 is the only success. -/
theorem sendDataToServer_eval_statuses :
    (sendDataToServer (fun _ _ _ => .ok ⟨200, "200 OK"⟩) "http://h" "x").2 = none ∧
    (sendDataToServer (fun _ _ _ => .ok ⟨201, "201 Created"⟩) "http://h" "x").2 =
      some "servidor retornou status não-OK: 201 Created" ∧
    (sendDataToServer (fun _ _ _ => .ok ⟨204, "204 No Content"⟩) "http://h" "x").2 =
      some "servidor retornou status não-OK: 204 No Content" ∧
    (sendDataToServer (fun _ _ _ => .ok ⟨500, "500 Internal Server Error"⟩) "http://h" "x").2 =
      some "servidor retornou status não-OK: 500 Internal Server Error" := by
  decide

/-- C10 (delivery outcome): `sendDataToServer` makes exactly one request, with
the encrypted text as body; it returns no error if and only if the request got
a response whose status code is 200, and a transport error is returned as it
is. -/
theorem sendDataToServer_outcome
    (post : String → String → String → Except Error Response)
    (serverAddress encryptedData : String) :
    (sendDataToServer post serverAddress encryptedData).1 =
      [.post serverAddress "text/plain" encryptedData] ∧
    ((sendDataToServer post serverAddress encryptedData).2 = none ↔
      ∃ resp, post serverAddress "text/plain" encryptedData = .ok resp ∧
        resp.StatusCode = 200) ∧
    (∀ err, post serverAddress "text/plain" encryptedData = .error err →
      (sendDataToServer post serverAddress encryptedData).2 = some err) := by
  refine ⟨sendDataToServer_events post serverAddress encryptedData, ?_, ?_⟩
  · unfold sendDataToServer
    cases post serverAddress "text/plain" encryptedData with
    | error e => simp
    | ok resp => by_cases h : resp.StatusCode = 200 <;> simp [h, StatusOK]
  · intro err h
    simp only [sendDataToServer, h]

theorem sendDataToServer_outcome_witness :
    (sendDataToServer (fun _ _ _ => .error "connection refused") "http://h" "x").2 =
      some "connection refused" :=
  (sendDataToServer_outcome (fun _ _ _ => .error "connection refused") "http://h" "x").2.2
    "connection refused" rfl

end

/-! ### Lemmas on strings and on ReadINIFile -/

theorem Split_no_sep (sep : Char) : ∀ (l : List Char), sep ∉ l → Split l sep = [l]
  | [], _ => rfl
  | c :: cs, h => by
    have hc : c ≠ sep := fun e => h (by simp [e])
    have ih := Split_no_sep sep cs (fun hm => h (by simp [hm]))
    simp [Split, hc, ih]

theorem Split_append (sep : Char) (rest : List Char) :
    ∀ (l : List Char), sep ∉ l → Split (l ++ sep :: rest) sep = l :: Split rest sep
  | [], _ => by simp [Split]
  | c :: cs, h => by
    have hc : c ≠ sep := fun e => h (by simp [e])
    have ih := Split_append sep rest cs (fun hm => h (by simp [hm]))
    simp [Split, hc, ih]

theorem Split_Join (sep : Char) : ∀ (l : List Char) (ls : List (List Char)),
    (∀ x ∈ l :: ls, sep ∉ x) → Split (Join (l :: ls) sep) sep = l :: ls
  | l, [], h => by
    simpa [Join] using Split_no_sep sep l (h l (by simp))
  | l, m :: ms, h => by
    have ih := Split_Join sep m ms (fun x hx => h x (by simp [hx]))
    have hj : Join (l :: m :: ms) sep = l ++ sep :: Join (m :: ms) sep := rfl
    rw [hj, Split_append sep _ l (h l (by simp)), ih]

theorem SplitN2_no_sep (sep : Char) : ∀ (l : List Char), sep ∉ l → SplitN2 l sep = [l]
  | [], _ => rfl
  | c :: cs, h => by
    have hc : c ≠ sep := fun e => h (by simp [e])
    have ih := SplitN2_no_sep sep cs (fun hm => h (by simp [hm]))
    simp [SplitN2, hc, ih]

theorem SplitN2_cut (sep : Char) (v : List Char) :
    ∀ (k : List Char), sep ∉ k → SplitN2 (k ++ sep :: v) sep = [k, v]
  | [], _ => by simp [SplitN2]
  | c :: cs, h => by
    have hc : c ≠ sep := fun e => h (by simp [e])
    have ih := SplitN2_cut sep v cs (fun hm => h (by simp [hm]))
    simp [SplitN2, hc, ih]

/-- A list that holds the separator is cut at its first occurrence. -/
theorem exists_first_sep (sep : Char) : ∀ (l : List Char), sep ∈ l →
    ∃ k v, l = k ++ sep :: v ∧ sep ∉ k
  | [], h => by simp at h
  | c :: cs, h => by
    by_cases hc : c = sep
    · exact ⟨[], cs, by simp [hc], by simp⟩
    · have hm : sep ∈ cs := by
        rcases List.mem_cons.mp h with e | e
        · exact absurd e.symm hc
        · exact e
      obtain ⟨k, v, hkv, hk⟩ := exists_first_sep sep cs hm
      refine ⟨c :: k, v, by simp [hkv], ?_⟩
      intro hmem
      rcases List.mem_cons.mp hmem with e | e
      · exact hc e.symm
      · exact hk e

theorem Config.get_set_same (config : Config) (key value : String) :
    (config.set key value).get key = some value := by
  simp [Config.set, Config.get, List.lookup]

theorem lookup_filter_ne (key key' : String) (h : key' ≠ key) :
    ∀ (es : List (String × String)),
      List.lookup key' (es.filter fun e => e.1 ≠ key) = List.lookup key' es
  | [] => rfl
  | (a, b) :: es => by
    have ih := lookup_filter_ne key key' h es
    by_cases ha : a = key
    · subst ha
      have hb : (key' == a) = false := by simpa using h
      rw [List.filter_cons_of_neg (by simp), List.lookup_cons, hb]
      exact ih
    · rw [List.filter_cons_of_pos (by simpa using ha), List.lookup_cons, List.lookup_cons, ih]

theorem Config.get_set_other (config : Config) (key key' value : String) (h : key' ≠ key) :
    (config.set key value).get key' = config.get key' := by
  have hb : (key' == key) = false := by simpa using h
  simp only [Config.set, Config.get, List.lookup, hb]
  exact lookup_filter_ne key key' h config

theorem readLine_skip (config : Config) (line : List Char)
    (h : TrimSpace line = [] ∨ HasPrefix (TrimSpace line) ';' = true ∨
      HasPrefix (TrimSpace line) '#' = true) :
    readLine config line = config := by
  simp only [readLine]
  rw [if_pos h]

theorem readLine_no_sep (config : Config) (line : List Char)
    (h : '=' ∉ TrimSpace line) : readLine config line = config := by
  simp only [readLine, SplitN2_no_sep '=' _ h]
  split_ifs <;> rfl

theorem readLine_entry (config : Config) (line k v : List Char)
    (hline : ¬ (TrimSpace line = [] ∨ HasPrefix (TrimSpace line) ';' = true ∨
      HasPrefix (TrimSpace line) '#' = true))
    (hcut : TrimSpace line = k ++ '=' :: v) (hk : '=' ∉ k) :
    readLine config line = config.set (String.mk (TrimSpace k)) (String.mk (TrimSpace v)) := by
  simp only [readLine]
  rw [if_neg hline, hcut, SplitN2_cut '=' v k hk]

theorem lineKey_entry (line k v : List Char)
    (hline : ¬ (TrimSpace line = [] ∨ HasPrefix (TrimSpace line) ';' = true ∨
      HasPrefix (TrimSpace line) '#' = true))
    (hcut : TrimSpace line = k ++ '=' :: v) (hk : '=' ∉ k) :
    lineKey line = some (String.mk (TrimSpace k)) := by
  simp only [lineKey]
  rw [if_neg hline, hcut, SplitN2_cut '=' v k hk]

/-- A line leaves alone every key other than the one it assigns. -/
theorem readLine_get_other (config : Config) (line : List Char) (key : String)
    (h : lineKey line ≠ some key) : (readLine config line).get key = config.get key := by
  by_cases hline : TrimSpace line = [] ∨ HasPrefix (TrimSpace line) ';' = true ∨
      HasPrefix (TrimSpace line) '#' = true
  · rw [readLine_skip config line hline]
  · by_cases hsep : '=' ∈ TrimSpace line
    · obtain ⟨k, v, hcut, hk⟩ := exists_first_sep '=' _ hsep
      rw [readLine_entry config line k v hline hcut hk]
      rw [lineKey_entry line k v hline hcut hk] at h
      exact Config.get_set_other config _ key _ (fun e => h (by rw [e]))
    · rw [readLine_no_sep config line hsep]

theorem foldl_readLine_get_other (key : String) : ∀ (lines : List (List Char))
    (config : Config), (∀ l ∈ lines, lineKey l ≠ some key) →
    (lines.foldl readLine config).get key = config.get key
  | [], _, _ => rfl
  | l :: ls, config, h => by
    rw [List.foldl_cons,
      foldl_readLine_get_other key ls (readLine config l) (fun x hx => h x (by simp [hx])),
      readLine_get_other config l key (h l (by simp))]

/-- On a text made of lines, `ReadINIFile` folds `readLine` over them. -/
theorem ReadINIFile_Join (l : List Char) (ls : List (List Char))
    (h : ∀ x ∈ l :: ls, '\n' ∉ x) :
    ReadINIFile (some (String.mk (Join (l :: ls) '\n'))) =
      some ((l :: ls).foldl readLine []) := by
  show some (List.foldl readLine [] (Split (Join (l :: ls) '\n') '\n')) = _
  rw [Split_Join '\n' l ls h]

theorem ReadINIFile_Join_append (pre post : List (List Char)) (line : List Char)
    (h : ∀ x ∈ pre ++ line :: post, '\n' ∉ x) :
    ReadINIFile (some (String.mk (Join (pre ++ line :: post) '\n'))) =
      some (post.foldl readLine (readLine (pre.foldl readLine []) line)) := by
  cases pre with
  | nil =>
    rw [List.nil_append, ReadINIFile_Join line post (by simpa using h)]
    rfl
  | cons p ps =>
    rw [List.cons_append, ReadINIFile_Join p (ps ++ line :: post) (by simpa using h),
      ← List.cons_append, List.foldl_append, List.foldl_cons]

/-! ### Claims on ReadINIFile -/

/-- C13 (comments and blanks): in a configuration text made of the lines
`pre`, `line`, `post`, a `line` that after trimming is empty or starts with
`;` or `#` contributes nothing: the map returned by `ReadINIFile` is the one
built from the other lines, whether or not the line holds an `=`.  Any other
line whose trimmed form is `k=v`, cut at its first `=`, assigns the trimmed
`v` to the trimmed `k` at its place among the lines. -/
theorem ReadINIFile_comments_and_blanks (pre post : List (List Char)) (line : List Char)
    (hlines : ∀ l ∈ pre ++ line :: post, '\n' ∉ l) :
    ((TrimSpace line = [] ∨ HasPrefix (TrimSpace line) ';' = true ∨
        HasPrefix (TrimSpace line) '#' = true) →
      ReadINIFile (some (String.mk (Join (pre ++ line :: post) '\n'))) =
        some ((pre ++ post).foldl readLine [])) ∧
    (∀ k v, ¬ (TrimSpace line = [] ∨ HasPrefix (TrimSpace line) ';' = true ∨
        HasPrefix (TrimSpace line) '#' = true) →
      TrimSpace line = k ++ '=' :: v → '=' ∉ k →
      ReadINIFile (some (String.mk (Join (pre ++ line :: post) '\n'))) =
        some (post.foldl readLine
          ((pre.foldl readLine []).set (String.mk (TrimSpace k)) (String.mk (TrimSpace v))))) := by
  constructor
  · intro h
    rw [ReadINIFile_Join_append pre post line hlines, readLine_skip _ line h,
      List.foldl_append]
  · intro k v hline hcut hk
    rw [ReadINIFile_Join_append pre post line hlines,
      readLine_entry _ line k v hline hcut hk]

theorem ReadINIFile_comments_and_blanks_witness :
    ReadINIFile (some (String.mk
      (Join (["a = 1".toList] ++ "  # b = 2 ".toList :: ["c=3".toList]) '\n'))) =
      some ((["a = 1".toList] ++ ["c=3".toList]).foldl readLine []) :=
  (ReadINIFile_comments_and_blanks ["a = 1".toList] ["c=3".toList] "  # b = 2 ".toList
    (by decide)).1 (by decide)

/-- C15 (later `=` signs are kept, the last line wins): a line that is
neither blank nor a comment and whose trimmed form is `k=v` with no `=` in `k`
is split at that first `=` only: it assigns the whole trimmed remainder `v`,
further `=` included, to the trimmed `k`.  A line without `=` assigns nothing.
When no later line assigns the same key, the map returned by `ReadINIFile`
holds this value for the key, whatever earlier lines assigned to it. -/
theorem ReadINIFile_first_equals_last_wins (pre post : List (List Char))
    (line k v : List Char) (hlines : ∀ l ∈ pre ++ line :: post, '\n' ∉ l)
    (hline : ¬ (TrimSpace line = [] ∨ HasPrefix (TrimSpace line) ';' = true ∨
      HasPrefix (TrimSpace line) '#' = true))
    (hcut : TrimSpace line = k ++ '=' :: v) (hk : '=' ∉ k)
    (hpost : ∀ l ∈ post, lineKey l ≠ some (String.mk (TrimSpace k))) :
    (∀ config, readLine config line =
      config.set (String.mk (TrimSpace k)) (String.mk (TrimSpace v))) ∧
    (∀ config l, '=' ∉ TrimSpace l → readLine config l = config) ∧
    (∃ config, ReadINIFile (some (String.mk (Join (pre ++ line :: post) '\n'))) =
        some config ∧
      config.get (String.mk (TrimSpace k)) = some (String.mk (TrimSpace v))) := by
  refine ⟨fun config => readLine_entry config line k v hline hcut hk,
    fun config l h => readLine_no_sep config l h, _,
    ReadINIFile_Join_append pre post line hlines, ?_⟩
  rw [foldl_readLine_get_other _ post _ hpost, readLine_entry _ line k v hline hcut hk]
  exact Config.get_set_same _ _ _

theorem ReadINIFile_first_equals_last_wins_witness :
    ∃ config,
      ReadINIFile (some (String.mk (Join (["server_address=old".toList] ++
        " server_address = http://h/p?a=b ".toList ::
          ["# server_address=x".toList, "server_address".toList, "k=v".toList]) '\n'))) =
        some config ∧
      config.get (String.mk (TrimSpace "server_address ".toList)) =
        some (String.mk (TrimSpace " http://h/p?a=b".toList)) :=
  (ReadINIFile_first_equals_last_wins ["server_address=old".toList]
    ["# server_address=x".toList, "server_address".toList, "k=v".toList]
    " server_address = http://h/p?a=b ".toList "server_address ".toList
    " http://h/p?a=b".toList (by decide) (by decide) (by decide) (by decide) (by decide)).2.2

/-- The configuration of the example above, evaluated. -/
theorem ReadINIFile_eval :
    ReadINIFile (some "server_address=old\n server_address = http://h/p?a=b \n# server_address=x\nserver_address\nk=v") =
      some [("k", "v"), ("server_address", "http://h/p?a=b")] := by
  decide

/-! ### Claims on the network and performance collectors -/

/-- The loop over the route lines never panics: the three fields it reads are
guarded by the length test. -/
theorem routeLoop_returns : ∀ (lines : List (List Char)) (entries : List network.RoutingEntry),
    ∃ r, network.routeLoop entries lines = .ok r
  | [], entries => ⟨entries, rfl⟩
  | line :: rest, entries => by
    unfold network.routeLoop
    by_cases h : (Fields line).length ≥ 8
    · have h0 : (Fields line).get? 0 = some ((Fields line).get ⟨0, by omega⟩) :=
        List.get?_eq_get _
      have h1 : (Fields line).get? 1 = some ((Fields line).get ⟨1, by omega⟩) :=
        List.get?_eq_get _
      have h7 : (Fields line).get? 7 = some ((Fields line).get ⟨7, by omega⟩) :=
        List.get?_eq_get _
      simp only [h, if_true, hardware.index, h0, h1, h7, bind, Except.bind]
      exact routeLoop_returns rest _
    · simp only [h, if_false]
      exact routeLoop_returns rest entries

/-- With at least two lines of output, that is at least one line break,
`getRoutingTable` returns a list of entries and no error. -/
theorem getRoutingTable_returns (q : network.Queries) (first rest : List Char)
    (hfirst : '\n' ∉ first) (hout : q.route = .ok (String.mk (first ++ '\n' :: rest))) :
    ∃ entries, network.getRoutingTable q = .ok (entries, none) := by
  have hs : Split (first ++ '\n' :: rest) '\n' = first :: Split rest '\n' :=
    Split_append '\n' rest first hfirst
  have hlen : 1 ≤ (Split rest '\n').length := by
    cases rest with
    | nil => simp [Split]
    | cons c cs =>
      simp only [Split]
      split_ifs
      · simp
      · split <;> simp
  obtain ⟨r, hr⟩ := routeLoop_returns ((first :: Split rest '\n').drop 2) []
  refine ⟨r, ?_⟩
  have hle : 2 ≤ (first :: Split rest '\n').length := by simp; omega
  simp only [network.getRoutingTable, hout, String.toList, hs, sliceFrom, hle, if_true, bind,
    Except.bind, hr, pure, Except.pure]

/-- With no line break in the output of `route -n`, `getRoutingTable` panics
on `lines[2:]`. -/
theorem getRoutingTable_one_line (q : network.Queries) (out : String)
    (hout : q.route = .ok out) (hline : '\n' ∉ out.toList) :
    network.getRoutingTable q = .error (.sliceBoundsOutOfRange 2 1) := by
  have hline' : '\n' ∉ out.data := hline
  simp [network.getRoutingTable, hout, Split_no_sep '\n' _ hline', sliceFrom, bind,
    Except.bind]

/-- C14 fails on the code: on the empty output of `route -n`, and on an output
of a single line, `getRoutingTable` slices `lines[2:]` out of range, so
neither it nor `GetAdvancedNetworkInfo` nor `network.Collect` returns; with
the two header lines present it returns the entries. -/
theorem getRoutingTable_short_output_panics :
    network.getRoutingTable (sampleNetwork (.ok "") (.ok (.ok "1.2.3.4"))) =
      .error (.sliceBoundsOutOfRange 2 1) ∧
    network.getRoutingTable
        (sampleNetwork (.ok "Kernel IP routing table") (.ok (.ok "1.2.3.4"))) =
      .error (.sliceBoundsOutOfRange 2 1) ∧
    network.GetAdvancedNetworkInfo (sampleNetwork (.ok "") (.ok (.ok "1.2.3.4"))) =
      .error (.sliceBoundsOutOfRange 2 1) ∧
    network.Collect (sampleNetwork (.ok "") (.ok (.ok "1.2.3.4"))) =
      .error (.sliceBoundsOutOfRange 2 1) ∧
    network.getRoutingTable (sampleNetwork (.error "exit status 1") (.ok (.ok "1.2.3.4"))) =
      .ok ([], some "exit status 1") ∧
    network.getRoutingTable (sampleNetwork (.ok routeOutput) (.ok (.ok "1.2.3.4"))) =
      .ok ([⟨"0.0.0.0", "10.0.0.1", "eth0"⟩], none) := by
  decide


/-- A returning `performance.Collect` holds in every field the value its own
sub-probe returned. -/
theorem performance_Collect_ok (q : performance.Queries) (m : performance.Metrics)
    (h : performance.Collect q = .ok m) :
    ∃ cpu ecpu net enet,
      performance.getCPUUsage q = .ok (cpu, ecpu) ∧
      performance.getNetworkIO q = .ok (net, enet) ∧
      m = { CPUUsage := cpu
            MemoryUsage := (performance.getMemoryUsage q).1
            DiskIO := ( performance.getDiskIO q).1
            NetworkIO := net
            SystemLoad := (performance.getSystemLoad q).1
            Temperatures := (performance.getTemperatures q).1 } := by
  unfold performance.Collect at h
  cases hc : performance.getCPUUsage q with
  | error e => simp [hc, bind, Except.bind] at h
  | ok c =>
    obtain ⟨cpu, ecpu⟩ := c
    cases hn : performance.getNetworkIO q with
    | error e => simp [hc, hn, bind, Except.bind] at h
    | ok r =>
      obtain ⟨net, enet⟩ := r
      simp only [hc, hn, bind, Except.bind, pure, Except.pure, Except.ok.injEq] at h
      exact ⟨cpu, ecpu, net, enet, rfl, rfl, h.symm⟩

/-- A returning `network.Collect` holds the value `getPublicIP` returned. -/
theorem network_Collect_ok (n : network.Queries) (info : network.Info)
    (h : network.Collect n = .ok info) :
    info.PublicIP = (network.getPublicIP n).1 := by
  unfold network.Collect at h
  cases ha : network.GetAdvancedNetworkInfo n with
  | error e => simp [ha, bind, Except.bind] at h
  | ok r =>
    obtain ⟨adv, eadv⟩ := r
    simp only [ha, bind, Except.bind, pure, Except.pure, Except.ok.injEq] at h
    rw [← h]

/-- C12 as stated fails: a memory-usage probe that fails and one that succeeds
with the reading 0.0 leave the same performance record, and a public-IP probe
that fails and one that reads an empty body leave the same network record. -/
theorem absent_equals_zero_reading_counterexample :
    performance.getMemoryUsage (samplePerformance (.error "no memory")) =
      (hardware.zeroFloat, some "no memory") ∧
    performance.getMemoryUsage (samplePerformance (.ok ⟨8, 0, 8, hardware.zeroFloat⟩)) =
      (hardware.zeroFloat, none) ∧
    performance.Collect (samplePerformance (.error "no memory")) =
      performance.Collect (samplePerformance (.ok ⟨8, 0, 8, hardware.zeroFloat⟩)) ∧
    (performance.Collect (samplePerformance (.error "no memory"))).map
      (fun m => m.MemoryUsage) = .ok hardware.zeroFloat ∧
    network.getPublicIP (sampleNetwork (.ok routeOutput) (.error "timeout")) =
      ("", some "timeout") ∧
    network.getPublicIP (sampleNetwork (.ok routeOutput) (.ok (.ok ""))) = ("", none) ∧
    network.Collect (sampleNetwork (.ok routeOutput) (.error "timeout")) =
      network.Collect (sampleNetwork (.ok routeOutput) (.ok (.ok ""))) ∧
    (network.Collect (sampleNetwork (.ok routeOutput) (.error "timeout"))).map
      (fun i => i.PublicIP) = .ok "" := by
  decide

/-- C12 amended: in the record a returning `performance.Collect` builds, a
field whose probe failed holds the zero value of its type, and the
memory-usage field of a probe that succeeded holds the reading; in the record
a returning `network.Collect` builds, the public IP is the empty string when
the request or the reading of its body failed, and the body otherwise.  So a
failed probe is told apart from a successful one only by a reading that is
not the zero value. -/
theorem failed_probe_stores_zero_value (q : performance.Queries) (n : network.Queries)
    (m : performance.Metrics) (info : network.Info)
    (hm : performance.Collect q = .ok m) (hn : network.Collect n = .ok info) :
    (∀ e, q.cpuPercent = .error e → m.CPUUsage = hardware.zeroFloat) ∧
    (∀ e, q.virtualMemory = .error e → m.MemoryUsage = hardware.zeroFloat) ∧
    (∀ v, q.virtualMemory = .ok v → m.MemoryUsage = v.UsedPercent) ∧
    (∀ e, q.diskBefore = .error e ∨ q.diskAfter = .error e →
      m.DiskIO = performance.DiskIOMetrics.zero) ∧
    (∀ e, q.netBefore = .error e ∨ q.netAfter = .error e →
      m.NetworkIO = performance.NetworkIOMetrics.zero) ∧
    (∀ e, q.loadAvg = .error e → m.SystemLoad = []) ∧
    (∀ e, q.sensors = .error e → m.Temperatures = performance.Temperatures.zero) ∧
    (∀ e, n.ipify = .error e ∨ n.ipify = .ok (.error e) → info.PublicIP = "") ∧
    (∀ ip, n.ipify = .ok (.ok ip) → info.PublicIP = ip) := by
  obtain ⟨cpu, ecpu, net, enet, hcpu, hnet, rfl⟩ := performance_Collect_ok q m hm
  have hip := network_Collect_ok n info hn
  refine ⟨?_, ?_, ?_, ?_, ?_, ?_, ?_, ?_, ?_⟩
  · intro e he
    simp only [performance.getCPUUsage, he, Except.ok.injEq, Prod.mk.injEq] at hcpu
    exact hcpu.1.symm
  · intro e he
    simp [performance.getMemoryUsage, he]
  · intro v hv
    simp [performance.getMemoryUsage, hv]
  · intro e he
    rcases he with he | he
    · simp [performance.getDiskIO, he]
    · cases hb : q.diskBefore <;> simp [performance.getDiskIO, he, hb]
  · intro e he
    rcases he with he | he
    · simp only [performance.getNetworkIO, he, Except.ok.injEq, Prod.mk.injEq] at hnet
      exact hnet.1.symm
    · cases hb : q.netBefore with
      | error e' =>
        simp only [performance.getNetworkIO, hb, Except.ok.injEq, Prod.mk.injEq] at hnet
        exact hnet.1.symm
      | ok b =>
        simp only [performance.getNetworkIO, hb, he, Except.ok.injEq, Prod.mk.injEq] at hnet
        exact hnet.1.symm
  · intro e he
    simp [performance.getSystemLoad, he]
  · intro e he
    simp [performance.getTemperatures, he]
  · intro e he
    rw [hip]
    rcases he with he | he <;> simp [network.getPublicIP, he]
  · intro ip he
    rw [hip]
    simp [network.getPublicIP, he]

theorem failed_probe_stores_zero_value_witness :
    (⟨⟨7⟩, ⟨0⟩, ⟨5, 0, 1, 0⟩, ⟨50, 60, 2, 4⟩, [⟨1⟩, ⟨2⟩, ⟨3⟩], ⟨⟨40⟩, ⟨0⟩, [⟨30⟩]⟩⟩ :
      performance.Metrics).MemoryUsage = hardware.zeroFloat ∧
    (⟨[⟨"eth0", "aa:bb", ["10.0.0.2"], "up", 1500, 1, 2⟩], [], ["10.0.0.1"], "",
      ⟨⟨5⟩, ⟨0⟩, ⟨8⟩, ⟨9⟩, [⟨"0.0.0.0", "10.0.0.1", "eth0"⟩], ⟨["10.0.0.1"], "lan"⟩,
        "Inativo"⟩⟩ : network.Info).PublicIP = "" := by
  obtain ⟨_, h2, _, _, _, _, _, h8, _⟩ :=
    failed_probe_stores_zero_value (samplePerformance (.error "no memory"))
      (sampleNetwork (.ok routeOutput) (.error "timeout"))
      ⟨⟨7⟩, ⟨0⟩, ⟨5, 0, 1, 0⟩, ⟨50, 60, 2, 4⟩, [⟨1⟩, ⟨2⟩, ⟨3⟩], ⟨⟨40⟩, ⟨0⟩, [⟨30⟩]⟩⟩
      ⟨[⟨"eth0", "aa:bb", ["10.0.0.2"], "up", 1500, 1, 2⟩], [], ["10.0.0.1"], "",
        ⟨⟨5⟩, ⟨0⟩, ⟨8⟩, ⟨9⟩, [⟨"0.0.0.0", "10.0.0.1", "eth0"⟩], ⟨["10.0.0.1"], "lan"⟩,
          "Inativo"⟩⟩
      (by decide) (by decide)
  exact ⟨h2 "no memory" rfl, h8 "timeout" (Or.inl rfl)⟩

/-! ### Lemmas on the JSON encoding -/

theorem keyPaths_object (members : List (String × JSON)) :
    (JSON.object members).keyPaths = memberPaths members := by
  simp [JSON.keyPaths]

theorem memberPaths_nil : memberPaths [] = [] := by
  simp [memberPaths]

theorem memberPaths_cons (k : String) (v : JSON) (ms : List (String × JSON)) :
    memberPaths ((k, v) :: ms) = ([k] :: v.keyPaths.map (k :: ·)) ++ memberPaths ms := by
  simp [memberPaths]

theorem keyPaths_string (s : String) : (JSON.string s).keyPaths = [] := by
  simp [JSON.keyPaths]

theorem keyPaths_int (n : Int) : (JSON.int n).keyPaths = [] := by
  simp [JSON.keyPaths]

theorem keyPaths_uint (n : Nat) : (JSON.uint n).keyPaths = [] := by
  simp [JSON.keyPaths]

theorem keyPaths_float (f : Float64) : (JSON.float f).keyPaths = [] := by
  simp [JSON.keyPaths]

theorem keyPaths_time (t : Nat) : (JSON.time t).keyPaths = [] := by
  simp [JSON.keyPaths]

theorem keyPaths_sliceJSON {α : Type} (f : α → JSON) (l : List α) :
    (sliceJSON f l).keyPaths = [] := by
  cases l <;> simp [sliceJSON, JSON.keyPaths]

theorem keyPaths_hardware_CPUInfo (c : hardware.CPUInfo) :
    (hardware.CPUInfo.toJSON c).keyPaths =
      [["model"], ["cores"], ["threads"], ["frequency_ghz"], ["temperature_celsius"],
       ["usage_percent"]] := by
  simp only [hardware.CPUInfo.toJSON, keyPaths_object, memberPaths_cons, memberPaths_nil, keyPaths_string,
    keyPaths_int, keyPaths_uint, keyPaths_float, keyPaths_sliceJSON]
  rfl

theorem keyPaths_hardware_MemoryInfo (m : hardware.MemoryInfo) :
    (hardware.MemoryInfo.toJSON m).keyPaths =
      [["total_bytes"], ["used_bytes"], ["free_bytes"], ["usage_percent"]] := by
  simp only [hardware.MemoryInfo.toJSON, keyPaths_object, memberPaths_cons, memberPaths_nil, keyPaths_string,
    keyPaths_int, keyPaths_uint, keyPaths_float, keyPaths_sliceJSON]
  rfl

theorem keyPaths_hardware_DiskInfo (d : hardware.DiskInfo) :
    (hardware.DiskInfo.toJSON d).keyPaths =
      [["device"], ["type"], ["total_bytes"], ["used_bytes"], ["free_bytes"], ["usage_percent"]] := by
  simp only [hardware.DiskInfo.toJSON, keyPaths_object, memberPaths_cons, memberPaths_nil, keyPaths_string,
    keyPaths_int, keyPaths_uint, keyPaths_float, keyPaths_sliceJSON]
  rfl

theorem keyPaths_hardware_GPUInfo (g : hardware.GPUInfo) :
    (hardware.GPUInfo.toJSON g).keyPaths =
      [["model"], ["memory_bytes"], ["temperature_celsius"], ["usage_percent"]] := by
  simp only [hardware.GPUInfo.toJSON, keyPaths_object, memberPaths_cons, memberPaths_nil, keyPaths_string,
    keyPaths_int, keyPaths_uint, keyPaths_float, keyPaths_sliceJSON]
  rfl

theorem keyPaths_hardware_Motherboard (m : hardware.Motherboard) :
    (hardware.Motherboard.toJSON m).keyPaths =
      [["manufacturer"], ["model"], ["serial_number"]] := by
  simp only [hardware.Motherboard.toJSON, keyPaths_object, memberPaths_cons, memberPaths_nil, keyPaths_string,
    keyPaths_int, keyPaths_uint, keyPaths_float, keyPaths_sliceJSON]
  rfl

theorem keyPaths_hardware_BIOSInfo (b : hardware.BIOSInfo) :
    (hardware.BIOSInfo.toJSON b).keyPaths =
      [["vendor"], ["version"], ["release_date"]] := by
  simp only [hardware.BIOSInfo.toJSON, keyPaths_object, memberPaths_cons, memberPaths_nil, keyPaths_string,
    keyPaths_int, keyPaths_uint, keyPaths_float, keyPaths_sliceJSON]
  rfl

theorem keyPaths_hardware_USBDevice (u : hardware.USBDevice) :
    (hardware.USBDevice.toJSON u).keyPaths =
      [["name"], ["vendor_id"], ["product_id"], ["serial_number"]] := by
  simp only [hardware.USBDevice.toJSON, keyPaths_object, memberPaths_cons, memberPaths_nil, keyPaths_string,
    keyPaths_int, keyPaths_uint, keyPaths_float, keyPaths_sliceJSON]
  rfl

theorem keyPaths_hardware_Info (i : hardware.Info) :
    (hardware.Info.toJSON i).keyPaths =
      [["cpu"], ["cpu", "model"], ["cpu", "cores"], ["cpu", "threads"], ["cpu", "frequency_ghz"],
       ["cpu", "temperature_celsius"], ["cpu", "usage_percent"], ["memory"],
       ["memory", "total_bytes"], ["memory", "used_bytes"], ["memory", "free_bytes"],
       ["memory", "usage_percent"], ["disk"], ["gpu"], ["motherboard"],
       ["motherboard", "manufacturer"], ["motherboard", "model"],
       ["motherboard", "serial_number"], ["bios"], ["bios", "vendor"], ["bios", "version"],
       ["bios", "release_date"], ["usb_devices"]] := by
  simp only [hardware.Info.toJSON, keyPaths_object, memberPaths_cons, memberPaths_nil, keyPaths_string,
    keyPaths_int, keyPaths_uint, keyPaths_float, keyPaths_sliceJSON, keyPaths_hardware_CPUInfo, keyPaths_hardware_MemoryInfo, keyPaths_hardware_Motherboard, keyPaths_hardware_BIOSInfo]
  rfl

theorem keyPaths_software_OSInfo (o : software.OSInfo) :
    (software.OSInfo.toJSON o).keyPaths =
      [["name"], ["version"], ["architecture"], ["hostname"]] := by
  simp only [software.OSInfo.toJSON, keyPaths_object, memberPaths_cons, memberPaths_nil, keyPaths_string,
    keyPaths_int, keyPaths_uint, keyPaths_float, keyPaths_sliceJSON]
  rfl

theorem keyPaths_software_InstalledApp (x : software.InstalledApp) :
    (software.InstalledApp.toJSON x).keyPaths =
      [["name"], ["version"], ["install_date"]] := by
  simp only [software.InstalledApp.toJSON, keyPaths_object, memberPaths_cons, memberPaths_nil, keyPaths_string,
    keyPaths_int, keyPaths_uint, keyPaths_float, keyPaths_sliceJSON]
  rfl

theorem keyPaths_software_Process (x : software.Process) :
    (software.Process.toJSON x).keyPaths =
      [["name"], ["pid"], ["cpu_usage_percent"], ["memory_usage_bytes"]] := by
  simp only [software.Process.toJSON, keyPaths_object, memberPaths_cons, memberPaths_nil, keyPaths_string,
    keyPaths_int, keyPaths_uint, keyPaths_float, keyPaths_sliceJSON]
  rfl

theorem keyPaths_software_Service (x : software.Service) :
    (software.Service.toJSON x).keyPaths =
      [["name"], ["status"]] := by
  simp only [software.Service.toJSON, keyPaths_object, memberPaths_cons, memberPaths_nil, keyPaths_string,
    keyPaths_int, keyPaths_uint, keyPaths_float, keyPaths_sliceJSON]
  rfl

theorem keyPaths_software_Info (i : software.Info) :
    (software.Info.toJSON i).keyPaths =
      [["os"], ["os", "name"], ["os", "version"], ["os", "architecture"], ["os", "hostname"],
       ["kernel"], ["installed_apps"], ["running_processes"], ["system_services"]] := by
  simp only [software.Info.toJSON, keyPaths_object, memberPaths_cons, memberPaths_nil, keyPaths_string,
    keyPaths_int, keyPaths_uint, keyPaths_float, keyPaths_sliceJSON, keyPaths_software_OSInfo]
  rfl

theorem keyPaths_network_Interface (x : network.Interface) :
    (network.Interface.toJSON x).keyPaths =
      [["name"], ["mac_address"], ["ip_addresses"], ["status"], ["speed_mbps"], ["bytes_sent"],
       ["bytes_recv"]] := by
  simp only [network.Interface.toJSON, keyPaths_object, memberPaths_cons, memberPaths_nil, keyPaths_string,
    keyPaths_int, keyPaths_uint, keyPaths_float, keyPaths_sliceJSON]
  rfl

theorem keyPaths_network_Connection (x : network.Connection) :
    (network.Connection.toJSON x).keyPaths =
      [["local_address"], ["local_port"], ["remote_address"], ["remote_port"], ["state"],
       ["process"]] := by
  simp only [network.Connection.toJSON, keyPaths_object, memberPaths_cons, memberPaths_nil, keyPaths_string,
    keyPaths_int, keyPaths_uint, keyPaths_float, keyPaths_sliceJSON]
  rfl

theorem keyPaths_network_RoutingEntry (x : network.RoutingEntry) :
    (network.RoutingEntry.toJSON x).keyPaths =
      [["destination"], ["gateway"], ["interface"]] := by
  simp only [network.RoutingEntry.toJSON, keyPaths_object, memberPaths_cons, memberPaths_nil, keyPaths_string,
    keyPaths_int, keyPaths_uint, keyPaths_float, keyPaths_sliceJSON]
  rfl

theorem keyPaths_network_DNSConfig (x : network.DNSConfig) :
    (network.DNSConfig.toJSON x).keyPaths =
      [["servers"], ["domain"]] := by
  simp only [network.DNSConfig.toJSON, keyPaths_object, memberPaths_cons, memberPaths_nil, keyPaths_string,
    keyPaths_int, keyPaths_uint, keyPaths_float, keyPaths_sliceJSON]
  rfl

theorem keyPaths_network_AdvancedNetworkInfo (x : network.AdvancedNetworkInfo) :
    (network.AdvancedNetworkInfo.toJSON x).keyPaths =
      [["latency_ms"], ["packet_loss_percent"], ["download_speed_mbps"], ["upload_speed_mbps"],
       ["routing_table"], ["dns_configuration"], ["dns_configuration", "servers"],
       ["dns_configuration", "domain"], ["vpn_status"]] := by
  simp only [network.AdvancedNetworkInfo.toJSON, keyPaths_object, memberPaths_cons, memberPaths_nil, keyPaths_string,
    keyPaths_int, keyPaths_uint, keyPaths_float, keyPaths_sliceJSON, keyPaths_network_DNSConfig]
  rfl

theorem keyPaths_network_Info (i : network.Info) :
    (network.Info.toJSON i).keyPaths =
      [["interfaces"], ["connections"], ["dns_servers"], ["public_ip"], ["advanced_info"],
       ["advanced_info", "latency_ms"], ["advanced_info", "packet_loss_percent"],
       ["advanced_info", "download_speed_mbps"], ["advanced_info", "upload_speed_mbps"],
       ["advanced_info", "routing_table"], ["advanced_info", "dns_configuration"],
       ["advanced_info", "dns_configuration", "servers"],
       ["advanced_info", "dns_configuration", "domain"], ["advanced_info", "vpn_status"]] := by
  simp only [network.Info.toJSON, keyPaths_object, memberPaths_cons, memberPaths_nil, keyPaths_string,
    keyPaths_int, keyPaths_uint, keyPaths_float, keyPaths_sliceJSON, keyPaths_network_AdvancedNetworkInfo]
  rfl

theorem keyPaths_performance_DiskIOMetrics (x : performance.DiskIOMetrics) :
    (performance.DiskIOMetrics.toJSON x).keyPaths =
      [["read_bytes_per_sec"], ["write_bytes_per_sec"], ["iops_read"], ["iops_write"]] := by
  simp only [performance.DiskIOMetrics.toJSON, keyPaths_object, memberPaths_cons, memberPaths_nil, keyPaths_string,
    keyPaths_int, keyPaths_uint, keyPaths_float, keyPaths_sliceJSON]
  rfl

theorem keyPaths_performance_NetworkIOMetrics (x : performance.NetworkIOMetrics) :
    (performance.NetworkIOMetrics.toJSON x).keyPaths =
      [["bytes_sent_per_sec"], ["bytes_recv_per_sec"], ["packets_sent_per_sec"],
       ["packets_recv_per_sec"]] := by
  simp only [performance.NetworkIOMetrics.toJSON, keyPaths_object, memberPaths_cons, memberPaths_nil, keyPaths_string,
    keyPaths_int, keyPaths_uint, keyPaths_float, keyPaths_sliceJSON]
  rfl

theorem keyPaths_performance_Temperatures (x : performance.Temperatures) :
    (performance.Temperatures.toJSON x).keyPaths =
      [["cpu_celsius"], ["gpu_celsius"], ["disk_celsius"]] := by
  simp only [performance.Temperatures.toJSON, keyPaths_object, memberPaths_cons, memberPaths_nil, keyPaths_string,
    keyPaths_int, keyPaths_uint, keyPaths_float, keyPaths_sliceJSON]
  rfl

theorem keyPaths_performance_Metrics (m : performance.Metrics) :
    (performance.Metrics.toJSON m).keyPaths =
      [["cpu_usage_percent"], ["memory_usage_percent"], ["disk_io"],
       ["disk_io", "read_bytes_per_sec"], ["disk_io", "write_bytes_per_sec"],
       ["disk_io", "iops_read"], ["disk_io", "iops_write"], ["network_io"],
       ["network_io", "bytes_sent_per_sec"], ["network_io", "bytes_recv_per_sec"],
       ["network_io", "packets_sent_per_sec"], ["network_io", "packets_recv_per_sec"],
       ["system_load"], ["temperatures"], ["temperatures", "cpu_celsius"],
       ["temperatures", "gpu_celsius"], ["temperatures", "disk_celsius"]] := by
  simp only [performance.Metrics.toJSON, keyPaths_object, memberPaths_cons, memberPaths_nil, keyPaths_string,
    keyPaths_int, keyPaths_uint, keyPaths_float, keyPaths_sliceJSON, keyPaths_performance_DiskIOMetrics, keyPaths_performance_NetworkIOMetrics, keyPaths_performance_Temperatures]
  rfl

theorem keyPaths_SystemInfo (info : Snapshot) :
    (SystemInfo.toJSON info).keyPaths = declaredKeys := by
  simp only [SystemInfo.toJSON, keyPaths_object, memberPaths_cons, memberPaths_nil,
    keyPaths_time, keyPaths_hardware_Info, keyPaths_software_Info, keyPaths_network_Info,
    keyPaths_performance_Metrics]
  rfl

/-! ### Claim on the serialized snapshot -/

/-- C11 (absent fields are never omitted): for every two snapshots, whatever
probes failed in them, the serialized objects have the same keys in the same
order: `timestamp`, `hardware`, `software`, `network`, `performance` and,
under each, every key the record declares; the records inside arrays have
their declared keys too.  The encoder returns this text unless a `float64` is
not finite, and for the snapshot in which every probe failed it writes each
key with `null`, the empty string or a zero. -/
theorem MarshalIndent_keys (a b : Snapshot) :
    (∀ j, MarshalIndent a = .ok j → j = SystemInfo.toJSON a) ∧
    ((SystemInfo.toJSON a).supported = true → MarshalIndent a = .ok (SystemInfo.toJSON a)) ∧
    (SystemInfo.toJSON a).keyPaths = declaredKeys ∧
    (SystemInfo.toJSON a).keyPaths = (SystemInfo.toJSON b).keyPaths ∧
    (∀ d : hardware.DiskInfo, (hardware.DiskInfo.toJSON d).keyPaths =
      [["device"], ["type"], ["total_bytes"], ["used_bytes"], ["free_bytes"],
       ["usage_percent"]]) ∧
    (∀ g : hardware.GPUInfo, (hardware.GPUInfo.toJSON g).keyPaths =
      [["model"], ["memory_bytes"], ["temperature_celsius"], ["usage_percent"]]) ∧
    (∀ u : hardware.USBDevice, (hardware.USBDevice.toJSON u).keyPaths =
      [["name"], ["vendor_id"], ["product_id"], ["serial_number"]]) ∧
    (∀ x : software.InstalledApp, (software.InstalledApp.toJSON x).keyPaths =
      [["name"], ["version"], ["install_date"]]) ∧
    (∀ x : software.Process, (software.Process.toJSON x).keyPaths =
      [["name"], ["pid"], ["cpu_usage_percent"], ["memory_usage_bytes"]]) ∧
    (∀ x : software.Service, (software.Service.toJSON x).keyPaths = [["name"], ["status"]]) ∧
    (∀ x : network.Interface, (network.Interface.toJSON x).keyPaths =
      [["name"], ["mac_address"], ["ip_addresses"], ["status"], ["speed_mbps"],
       ["bytes_sent"], ["bytes_recv"]]) ∧
    (∀ x : network.Connection, (network.Connection.toJSON x).keyPaths =
      [["local_address"], ["local_port"], ["remote_address"], ["remote_port"], ["state"],
       ["process"]]) ∧
    (∀ x : network.RoutingEntry, (network.RoutingEntry.toJSON x).keyPaths =
      [["destination"], ["gateway"], ["interface"]]) ∧
    MarshalIndent zeroSnapshot = .ok zeroSnapshotJSON := by
  refine ⟨?_, ?_, keyPaths_SystemInfo a, ?_, keyPaths_hardware_DiskInfo,
    keyPaths_hardware_GPUInfo, keyPaths_hardware_USBDevice, keyPaths_software_InstalledApp,
    keyPaths_software_Process, keyPaths_software_Service, keyPaths_network_Interface,
    keyPaths_network_Connection, keyPaths_network_RoutingEntry, rfl⟩
  · intro j hj
    unfold MarshalIndent at hj
    split_ifs at hj
    exact (Except.ok.inj hj).symm
  · intro h
    simp [MarshalIndent, h]
  · rw [keyPaths_SystemInfo a, keyPaths_SystemInfo b]

theorem MarshalIndent_keys_witness :
    MarshalIndent sampleSnapshot = .ok (SystemInfo.toJSON sampleSnapshot) ∧
    (SystemInfo.toJSON sampleSnapshot).keyPaths = (SystemInfo.toJSON zeroSnapshot).keyPaths :=
  ⟨(MarshalIndent_keys sampleSnapshot zeroSnapshot).2.1 rfl,
    (MarshalIndent_keys sampleSnapshot zeroSnapshot).2.2.2.1⟩

/-- The encoder fails on a NaN and still would have written every key. -/
theorem MarshalIndent_eval_nan :
    MarshalIndent nanSnapshot = .error .unsupportedValue ∧
    (SystemInfo.toJSON nanSnapshot).keyPaths = declaredKeys :=
  ⟨rfl, keyPaths_SystemInfo nanSnapshot⟩

/-- The array of a non-empty slice holds one object per element, a nil slice
is written as `null`. -/
theorem sliceJSON_eval :
    (hardware.Info.toJSON sampleSnapshot.Hardware).member "disk" =
      some (.array [hardware.DiskInfo.toJSON ⟨"/dev/sda1", "ext4", 100, 40, 60, ⟨2⟩⟩]) ∧
    (hardware.Info.toJSON sampleSnapshot.Hardware).member "gpu" = some .null :=
  ⟨rfl, rfl⟩

end Monitoramento
